import Mathlib

/-!
Verification of `chaturbate-recorder-rs` core behavior.

Shallow embedding of the program's core data model and operations:
* `src/error.rs`          — the closed error enum (`CR.Error`)
* `src/api/client.rs`     — response classification of `ChaturbateClient::get`
* `src/stream/discovery.rs` — variant selection (`select_variant`)
* `src/stream/segment.rs` — `SegmentTracker` and segment download retry
* `src/stream/recorder.rs`— the capture loop's per-iteration behavior and
  the file split policy (`should_split_file`)
* `src/stream/monitor.rs` — per-room backoff (`RoomCheckState`), per-cycle
  check eligibility and the cookie-death aggregate detection
* `src/fs/paths.rs`       — output path generation

Machine integers (`u32`, `u64`) are modeled as `Nat`: the modeled code
performs no wrapping arithmetic on them in any claim-relevant range.
`f64` duration arithmetic is modeled exactly over `ℚ`.  External
collaborators (the HTTP transport, the `url` crate's parser/joiner, the
filesystem and the wall clock) are modeled as explicit oracle inputs.
-/

namespace CR

/-- The closed error enum of `src/error.rs` (variants reachable from the
modeled core; payloads kept where the modeled code constructs them). -/
inductive Error where
  | roomNotFound (url : String)
  | broadcasterOffline (room : String)
  | streamNotFound (room : String)
  | cloudflareBlocked
  | ageVerification
  | privateStream
  | network
  | io
  | json
  | urlParse
  | m3u8 (msg : String)
  | segmentDownloadFailed
  deriving DecidableEq, Repr

/-- Boolean test that `p` is a prefix of `s` (`str::starts_with`). -/
def startsWithL : List Char → List Char → Bool
  | _, [] => true
  | [], _ :: _ => false
  | c :: s, p :: ps => c == p && startsWithL s ps

/-- Boolean substring occurrence test (`str::contains` for string needles). -/
def subOccurs (needle : List Char) : List Char → Bool
  | [] => needle.isEmpty
  | c :: rest => startsWithL (c :: rest) needle || subOccurs needle rest

/-- `haystack.contains(needle)` on `String`s. -/
def containsSub (haystack needle : String) : Bool :=
  subOccurs needle.data haystack.data

/-! ## Network client (`src/api/client.rs`, `ChaturbateClient::get`) -/

/-- An HTTP response delivered by the transport (transport succeeded). -/
structure HttpResponse where
  status : Nat
  body : String
  deriving DecidableEq, Repr

/-- Cloudflare interstitial marker checked by `ChaturbateClient::get`. -/
def cloudflareMarker : String := "<title>Just a moment...</title>"

/-- Age-gate marker checked by `ChaturbateClient::get`. -/
def ageMarker : String := "Verify your age"

/-- `ChaturbateClient::get` (src/api/client.rs lines 63–91): response
classification for the text fetch, given the transport delivered a
response.  `url` is the request URL (carried into `RoomNotFound`). -/
def clientGet (url : String) (resp : HttpResponse) : Except Error String :=
  if resp.status = 403 then .error .privateStream
  else if resp.status = 404 then .error (.roomNotFound url)
  else if containsSub resp.body cloudflareMarker then .error .cloudflareBlocked
  else if containsSub resp.body ageMarker then .error .ageVerification
  else .ok resp.body

/-- Modelled from the spec (spec.md §4.1): the text fetch as the spec
describes it, classifying every *other* non-success HTTP status as a
`Network` error and returning the body only on success (2xx). -/
def clientGetSpec (url : String) (resp : HttpResponse) : Except Error String :=
  if resp.status = 403 then .error .privateStream
  else if resp.status = 404 then .error (.roomNotFound url)
  else if containsSub resp.body cloudflareMarker then .error .cloudflareBlocked
  else if containsSub resp.body ageMarker then .error .ageVerification
  else if 200 ≤ resp.status ∧ resp.status ≤ 299 then .ok resp.body
  else .error .network

end CR

/-- C2 (counterexample): the claim "the text-fetch operation fails with a
Network error on any other non-success HTTP status; it returns the body
text only on success" is false on the code: for an HTTP 500 response with
a marker-free body, `ChaturbateClient::get` returns the body as success,
where the claimed behavior (`clientGetSpec`) is a `Network` error. -/
theorem C2_get_counterexample :
    CR.clientGet "u" ⟨500, "oops"⟩ = .ok "oops" ∧
    CR.clientGetSpec "u" ⟨500, "oops"⟩ = .error .network := by
  constructor <;> rfl

/-- C2 (amended): `ChaturbateClient::get` classifies HTTP 403 as
`PrivateStream` and HTTP 404 as `RoomNotFound` (before reading the body),
then classifies any body containing the Cloudflare interstitial marker as
`CloudflareBlocked` and any body containing the age-gate marker as
`AgeVerification`; on every other response — regardless of HTTP status,
including non-success statuses other than 403/404 — it returns the body
text.  No `Network` classification by status exists in the text fetch. -/
theorem C2_get_classification (url : String) (resp : CR.HttpResponse) :
    (CR.clientGet url resp = .error .privateStream ↔ resp.status = 403) ∧
    (CR.clientGet url resp = .error (.roomNotFound url) ↔
      resp.status ≠ 403 ∧ resp.status = 404) ∧
    (CR.clientGet url resp = .error .cloudflareBlocked ↔
      resp.status ≠ 403 ∧ resp.status ≠ 404 ∧
      CR.containsSub resp.body CR.cloudflareMarker = true) ∧
    (CR.clientGet url resp = .error .ageVerification ↔
      resp.status ≠ 403 ∧ resp.status ≠ 404 ∧
      CR.containsSub resp.body CR.cloudflareMarker = false ∧
      CR.containsSub resp.body CR.ageMarker = true) ∧
    (CR.clientGet url resp = .ok resp.body ↔
      resp.status ≠ 403 ∧ resp.status ≠ 404 ∧
      CR.containsSub resp.body CR.cloudflareMarker = false ∧
      CR.containsSub resp.body CR.ageMarker = false) := by
  unfold CR.clientGet
  by_cases h403 : resp.status = 403 <;> simp [h403]
  · by_cases h404 : resp.status = 404 <;> simp [h404]
    · by_cases hcf : CR.containsSub resp.body CR.cloudflareMarker <;> simp [hcf]
      by_cases hage : CR.containsSub resp.body CR.ageMarker <;> simp [hage]

namespace CR

/-! ## Segment tracker (`src/stream/segment.rs`) -/

/-- `SegmentTracker` state.  The compiled `Regex` field is a constant
(always the literal `_(\d+)\.ts$`), embedded directly into
`extractSequence` below. -/
structure SegmentTracker where
  lastSequence : Nat
  deriving DecidableEq, Repr

/-- `SegmentTracker::new` — `last_sequence` starts at 0.  (The `Result`
in the source is only for compiling the constant regex literal, which
never fails; creation is modeled as total.) -/
def SegmentTracker.new : SegmentTracker := ⟨0⟩

/-- Parse a list of ASCII digits as a `Nat` (`str::parse` digit loop). -/
def digitsToNat (ds : List Char) : Nat :=
  ds.foldl (fun n c => n * 10 + (c.toNat - '0'.toNat)) 0

/-- `SegmentTracker::extract_sequence`: the regex `_(\d+)\.ts$` applied to
`uri`, the capture parsed as `u64`.  Embedded directly: the URI must end
in `.ts` preceded by a nonempty run of ASCII digits preceded by `_`; a
capture that fails to parse as `u64` (non-ASCII `\d` characters, or a
value ≥ 2^64) yields `none` exactly as `parse::<u64>().ok()` does. -/
def extractSequence (uri : String) : Option Nat :=
  match uri.data.reverse with
  | 's' :: 't' :: '.' :: revStem =>
    let revDigits := revStem.takeWhile Char.isDigit
    match revDigits, revStem.drop revDigits.length with
    | _ :: _, '_' :: _ =>
      let v := digitsToNat revDigits.reverse
      if v < 2 ^ 64 then some v else none
    | _, _ => none
  | _ => none

/-- `SegmentTracker::is_new_segment`. -/
def SegmentTracker.isNewSegment (t : SegmentTracker) (sequence : Nat) : Bool :=
  decide (t.lastSequence < sequence)

/-- `SegmentTracker::update_sequence`. -/
def SegmentTracker.updateSequence (t : SegmentTracker) (sequence : Nat) :
    SegmentTracker :=
  if t.lastSequence < sequence then ⟨sequence⟩ else t

/-- One call against a `SegmentTracker`: `extract_sequence` (read-only),
`is_new_segment` (read-only) or `update_sequence`. -/
inductive TrackerOp where
  | extract (uri : String)
  | query (sequence : Nat)
  | update (sequence : Nat)

/-- State after one tracker call (read-only calls leave it unchanged). -/
def SegmentTracker.applyOp (t : SegmentTracker) : TrackerOp → SegmentTracker
  | .extract _ => t
  | .query _ => t
  | .update s => t.updateSequence s

/-- State after a sequence of tracker calls. -/
def SegmentTracker.applyOps (t : SegmentTracker) (ops : List TrackerOp) :
    SegmentTracker :=
  ops.foldl SegmentTracker.applyOp t

theorem SegmentTracker.applyOp_mono (t : SegmentTracker) (op : TrackerOp) :
    t.lastSequence ≤ (t.applyOp op).lastSequence := by
  cases op with
  | extract _ => exact le_refl _
  | query _ => exact le_refl _
  | update s =>
    simp only [applyOp, updateSequence]
    split
    · exact le_of_lt (by assumption)
    · exact le_refl _

end CR

/-- C6: along every sequence of `extract_sequence`/`is_new_segment`/
`update_sequence` calls, `last_sequence` is monotone non-decreasing;
`update_sequence` advances it exactly when given a strictly greater
value (leaving the tracker unchanged otherwise); and `is_new_segment s`
returns true exactly when `s` is strictly greater than the current
`last_sequence`. -/
theorem C6_tracker_invariant :
    (∀ (t : CR.SegmentTracker) (ops : List CR.TrackerOp),
      t.lastSequence ≤ (t.applyOps ops).lastSequence) ∧
    (∀ (t : CR.SegmentTracker) (s : Nat),
      t.isNewSegment s = true ↔ t.lastSequence < s) ∧
    (∀ (t : CR.SegmentTracker) (s : Nat), t.lastSequence < s →
      (t.updateSequence s).lastSequence = s) ∧
    (∀ (t : CR.SegmentTracker) (s : Nat), ¬ t.lastSequence < s →
      t.updateSequence s = t) := by
  refine ⟨?_, ?_, ?_, ?_⟩
  · intro t ops
    induction ops generalizing t with
    | nil => exact le_refl _
    | cons op rest ih =>
      calc t.lastSequence ≤ (t.applyOp op).lastSequence :=
            CR.SegmentTracker.applyOp_mono t op
        _ ≤ ((t.applyOp op).applyOps rest).lastSequence := ih _
  · intro t s
    simp [CR.SegmentTracker.isNewSegment]
  · intro t s h
    simp [CR.SegmentTracker.updateSequence, h]
  · intro t s h
    simp [CR.SegmentTracker.updateSequence, h]

/-- C6 witness: concrete run exercising the theorem's hypotheses. -/
theorem C6_tracker_invariant_witness :
    ((⟨3⟩ : CR.SegmentTracker).lastSequence ≤
      ((⟨3⟩ : CR.SegmentTracker).applyOps
        [.update 7, .query 2, .update 5, .extract "a_9.ts"]).lastSequence) ∧
    ((3:Nat) < 7 ∧ ((⟨3⟩ : CR.SegmentTracker).updateSequence 7).lastSequence = 7) ∧
    (¬ (3:Nat) < 2 ∧ (⟨3⟩ : CR.SegmentTracker).updateSequence 2 = ⟨3⟩) := by
  refine ⟨C6_tracker_invariant.1 ⟨3⟩ _, ⟨by decide, ?_⟩, ⟨by decide, ?_⟩⟩
  · exact C6_tracker_invariant.2.2.1 ⟨3⟩ 7 (by decide)
  · exact C6_tracker_invariant.2.2.2 ⟨3⟩ 2 (by decide)

namespace CR

/-! ## Variant selection (`src/stream/discovery.rs`, `select_variant`) -/

/-- A parsed master-playlist variant (`struct Variant`). -/
structure Variant where
  url : String
  resolution : Nat
  framerate : Nat
  bandwidth : Nat
  deriving DecidableEq, Repr

instance : Inhabited Variant := ⟨⟨"", 0, 0, 0⟩⟩

/-- The comparator passed to `variants.sort_by` (lines 181–186):
`b.resolution.cmp(&a.resolution).then(b.framerate.cmp(&a.framerate))
.then(b.bandwidth.cmp(&a.bandwidth))` — descending on each field. -/
def variantCompare (a b : Variant) : Ordering :=
  ((compare b.resolution a.resolution).then
    (compare b.framerate a.framerate)).then
    (compare b.bandwidth a.bandwidth)

/-- `a` sorts no later than `b` under the comparator (`cmp(a,b) ≠ Greater`). -/
def variantLe (a b : Variant) : Prop := variantCompare a b ≠ .gt

instance : DecidableRel variantLe := fun a b => by
  unfold variantLe; infer_instance

/-- `Ordering.then` analysis lemmas. -/
theorem then_ne_gt (x y : Ordering) :
    x.then y ≠ .gt ↔ (x = .lt ∨ (x = .eq ∧ y ≠ .gt)) := by
  cases x <;> cases y <;> simp [Ordering.then]

theorem then_eq_lt (x y : Ordering) :
    x.then y = .lt ↔ (x = .lt ∨ (x = .eq ∧ y = .lt)) := by
  cases x <;> cases y <;> simp [Ordering.then]

theorem then_eq_eq (x y : Ordering) :
    x.then y = .eq ↔ (x = .eq ∧ y = .eq) := by
  cases x <;> cases y <;> simp [Ordering.then]

/-- The comparator orders by (resolution, framerate, bandwidth)
lexicographically descending. -/
theorem variantLe_iff (a b : Variant) :
    variantLe a b ↔
      b.resolution < a.resolution ∨
      (b.resolution = a.resolution ∧
        (b.framerate < a.framerate ∨
          (b.framerate = a.framerate ∧ b.bandwidth ≤ a.bandwidth))) := by
  unfold variantLe variantCompare
  rw [then_ne_gt, then_eq_lt, then_eq_eq]
  simp only [Nat.compare_eq_lt, Nat.compare_eq_eq, Nat.compare_eq_gt, ne_eq]
  omega

instance : IsTotal Variant variantLe := ⟨by
  intro a b
  rw [variantLe_iff, variantLe_iff]
  omega⟩

instance : IsTrans Variant variantLe := ⟨by
  intro a b c hab hbc
  rw [variantLe_iff] at *
  omega⟩

theorem variantLe_refl (a : Variant) : variantLe a a := by
  rw [variantLe_iff]; omega

/-- Exact-match predicate of the first `find` (line 191). -/
def exactMatch (targetResolution targetFramerate : Nat) (v : Variant) : Bool :=
  v.resolution == targetResolution && v.framerate == targetFramerate

/-- At-most-target predicate of the second `find` (line 195). -/
def belowTarget (targetResolution targetFramerate : Nat) (v : Variant) : Bool :=
  decide (v.resolution ≤ targetResolution) &&
    decide (v.framerate ≤ targetFramerate)

/-- `select_variant` selection logic (lines 176–203), after the variants
have been parsed: empty variant list is the `M3u8` "No variants found"
error (modeled as `none`); otherwise sort by the comparator (Rust's
stable `sort_by`, modeled by the stable `insertionSort`), prefer an exact
match, else the first variant at or below target in both coordinates,
else the first (globally best-ranked) sorted variant. -/
def selectVariant (variants : List Variant)
    (targetResolution targetFramerate : Nat) : Option Variant :=
  if variants.isEmpty then none
  else
    let sorted := variants.insertionSort variantLe
    some ((Option.orElse
        (sorted.find? (exactMatch targetResolution targetFramerate))
        (fun _ => sorted.find? (belowTarget targetResolution targetFramerate))).getD
      sorted.headI)

/-- In a sorted list, the first element satisfying `p` is `variantLe`-below
every element of the list satisfying `p`. -/
theorem find?_sorted_best {l : List Variant} {p : Variant → Bool} {v : Variant}
    (hs : List.Sorted variantLe l) (hf : l.find? p = some v) :
    ∀ w ∈ l, p w = true → variantLe v w := by
  induction l with
  | nil => simp at hf
  | cons a t ih =>
    rw [List.sorted_cons] at hs
    by_cases hpa : p a = true
    · rw [List.find?_cons_of_pos _ hpa] at hf
      cases hf
      intro w hw _
      rcases hw with _ | hw
      · exact variantLe_refl _
      · exact hs.1 _ (by assumption)
    · rw [List.find?_cons_of_neg _ hpa] at hf
      intro w hw hpw
      rcases hw with _ | hw
      · exact absurd hpw hpa
      · exact ih hs.2 hf _ (by assumption) hpw

theorem headI_mem_of_ne_nil {l : List Variant} (h : l ≠ []) : l.headI ∈ l := by
  cases l with
  | nil => exact absurd rfl h
  | cons a t => exact List.mem_cons_self a t

/-- The head of a sorted nonempty list is `variantLe`-below every element. -/
theorem headI_sorted_best {l : List Variant}
    (hs : List.Sorted variantLe l) (hne : l ≠ []) :
    ∀ w ∈ l, variantLe l.headI w := by
  cases l with
  | nil => exact absurd rfl hne
  | cons a t =>
    rw [List.sorted_cons] at hs
    intro w hw
    rcases hw with _ | hw
    · exact variantLe_refl _
    · exact hs.1 _ (by assumption)

end CR

namespace CR

/-- The concrete variant list of the spec's selection example:
[(1080,30),(720,60),(720,30),(480,30)] (bandwidths equal, URLs distinct). -/
def exampleVariants : List Variant :=
  [⟨"v1080p30", 1080, 30, 0⟩, ⟨"v720p60", 720, 60, 0⟩,
   ⟨"v720p30", 720, 30, 0⟩, ⟨"v480p30", 480, 30, 0⟩]

end CR

/-- C1: for a non-empty variant list, selection never fails and returns a
variant of the list; it is an exact match on (resolution, framerate) when
one exists; otherwise, when some variant is at or below target in both
coordinates, the selected one is such a variant and is best-ranked
(`variantLe`-below every such variant) under the sort order (resolution
desc, framerate desc, bandwidth desc); otherwise it is the globally
best-ranked variant.  On the spec's example list, target (720,30) selects
(720,30) and target (1080,60) selects (1080,30) over (720,60). -/
theorem C1_variant_selection :
    (∀ (vs : List CR.Variant) (tr tf : Nat), vs ≠ [] →
      ∃ v, CR.selectVariant vs tr tf = some v ∧ v ∈ vs ∧
        ((∃ w ∈ vs, w.resolution = tr ∧ w.framerate = tf) →
          v.resolution = tr ∧ v.framerate = tf) ∧
        ((¬ ∃ w ∈ vs, w.resolution = tr ∧ w.framerate = tf) →
          (∃ w ∈ vs, w.resolution ≤ tr ∧ w.framerate ≤ tf) →
          (v.resolution ≤ tr ∧ v.framerate ≤ tf) ∧
            ∀ w ∈ vs, w.resolution ≤ tr ∧ w.framerate ≤ tf → CR.variantLe v w) ∧
        ((¬ ∃ w ∈ vs, w.resolution = tr ∧ w.framerate = tf) →
          (¬ ∃ w ∈ vs, w.resolution ≤ tr ∧ w.framerate ≤ tf) →
          ∀ w ∈ vs, CR.variantLe v w)) ∧
    CR.selectVariant CR.exampleVariants 720 30 = some ⟨"v720p30", 720, 30, 0⟩ ∧
    CR.selectVariant CR.exampleVariants 1080 60 = some ⟨"v1080p30", 1080, 30, 0⟩ := by
  refine ⟨?_, by decide, by decide⟩
  intro vs tr tf hne
  have hemp : vs.isEmpty = false := by
    cases vs with
    | nil => exact absurd rfl hne
    | cons a t => rfl
  have hperm := List.perm_insertionSort CR.variantLe vs
  have hsort := List.sorted_insertionSort CR.variantLe vs
  set sorted := vs.insertionSort CR.variantLe with hsdef
  have hsne : sorted ≠ [] := by
    intro h
    rw [h] at hperm
    exact hne (hperm.nil_eq.symm)
  have hmem : ∀ w, w ∈ sorted ↔ w ∈ vs := fun w => hperm.mem_iff
  -- the selected element, by cases on the two find?s
  rcases hfe : sorted.find? (CR.exactMatch tr tf) with _ | ve
  · rcases hfb : sorted.find? (CR.belowTarget tr tf) with _ | vb
    · -- both find?s fail: fall back to the head of the sorted list
      refine ⟨sorted.headI, ?_, ?_, ?_, ?_, ?_⟩
      · simp [CR.selectVariant, hemp, ← hsdef, hfe, hfb, Option.orElse]
      · exact (hmem _).1 (CR.headI_mem_of_ne_nil hsne)
      · intro ⟨w, hw, hw1, hw2⟩
        have := (List.find?_eq_none.1 hfe) w ((hmem w).2 hw)
        simp [CR.exactMatch, hw1, hw2] at this
      · intro _ ⟨w, hw, hw1, hw2⟩
        have := (List.find?_eq_none.1 hfb) w ((hmem w).2 hw)
        simp [CR.belowTarget, hw1, hw2] at this
      · intro _ _ w hw
        exact CR.headI_sorted_best hsort hsne w ((hmem w).2 hw)
    · -- no exact match, but a below-target variant exists
      refine ⟨vb, ?_, ?_, ?_, ?_, ?_⟩
      · simp [CR.selectVariant, hemp, ← hsdef, hfe, hfb, Option.orElse]
      · exact (hmem _).1 (List.mem_of_find?_eq_some hfb)
      · intro ⟨w, hw, hw1, hw2⟩
        have := (List.find?_eq_none.1 hfe) w ((hmem w).2 hw)
        simp [CR.exactMatch, hw1, hw2] at this
      · intro _ _
        have hpb := List.find?_some hfb
        simp only [CR.belowTarget, Bool.and_eq_true, decide_eq_true_eq] at hpb
        refine ⟨hpb, ?_⟩
        intro w hw hw12
        refine CR.find?_sorted_best hsort hfb w ((hmem w).2 hw) ?_
        simp [CR.belowTarget, hw12.1, hw12.2]
      · intro _ hno
        exfalso
        exact hno ⟨vb, (hmem _).1 (List.mem_of_find?_eq_some hfb), by
          have hpb := List.find?_some hfb
          simpa [CR.belowTarget] using hpb⟩
  · -- an exact match exists and is selected
    refine ⟨ve, ?_, ?_, ?_, ?_, ?_⟩
    · simp [CR.selectVariant, hemp, ← hsdef, hfe, Option.orElse]
    · exact (hmem _).1 (List.mem_of_find?_eq_some hfe)
    · intro _
      have hpe := List.find?_some hfe
      simpa [CR.exactMatch] using hpe
    · intro hno _
      exfalso
      exact hno ⟨ve, (hmem _).1 (List.mem_of_find?_eq_some hfe), by
        have hpe := List.find?_some hfe
        simpa [CR.exactMatch] using hpe⟩
    · intro hno _
      exfalso
      exact hno ⟨ve, (hmem _).1 (List.mem_of_find?_eq_some hfe), by
        have hpe := List.find?_some hfe
        simpa [CR.exactMatch] using hpe⟩

/-- C1 witness: the general part applied to the spec's example list with
target (1080,60), where no exact match exists. -/
theorem C1_variant_selection_witness :
    ∃ v, CR.selectVariant CR.exampleVariants 1080 60 = some v ∧
      v ∈ CR.exampleVariants ∧
      ((∃ w ∈ CR.exampleVariants, w.resolution = 1080 ∧ w.framerate = 60) →
        v.resolution = 1080 ∧ v.framerate = 60) ∧
      ((¬ ∃ w ∈ CR.exampleVariants, w.resolution = 1080 ∧ w.framerate = 60) →
        (∃ w ∈ CR.exampleVariants, w.resolution ≤ 1080 ∧ w.framerate ≤ 60) →
        (v.resolution ≤ 1080 ∧ v.framerate ≤ 60) ∧
          ∀ w ∈ CR.exampleVariants,
            w.resolution ≤ 1080 ∧ w.framerate ≤ 60 → CR.variantLe v w) ∧
      ((¬ ∃ w ∈ CR.exampleVariants, w.resolution = 1080 ∧ w.framerate = 60) →
        (¬ ∃ w ∈ CR.exampleVariants, w.resolution ≤ 1080 ∧ w.framerate ≤ 60) →
        ∀ w ∈ CR.exampleVariants, CR.variantLe v w) :=
  C1_variant_selection.1 CR.exampleVariants 1080 60 (by decide)

namespace CR

/-! ## Recorder (`src/stream/recorder.rs`) and segment download retry -/

/-- `RecordingStats` accumulator. -/
structure RecordingStats where
  segmentsDownloaded : Nat
  bytesWritten : Nat
  durationSeconds : ℚ
  filesCreated : Nat
  deriving DecidableEq, Repr

/-- One media-playlist entry: URI and declared `EXTINF` duration. -/
structure MediaSegment where
  uri : String
  duration : ℚ
  deriving DecidableEq, Repr

/-- Mutable state of the capture loop between iterations (tracker, current
output file's sequence suffix and per-file counters, stats). -/
structure RecState where
  tracker : SegmentTracker
  fileSequence : Nat
  fileDuration : ℚ
  fileSize : Nat
  stats : RecordingStats
  deriving DecidableEq, Repr

/-- The external world as the capture loop sees it: the `url` crate's
parse-and-join (`none` = `url::ParseError`), per-(URL, attempt) segment
download outcomes of `get_bytes` (`ok` carries the byte count), and the
filesystem's reply to write/flush/create. -/
structure RecEnv where
  join : String → String → Option String
  attempt : String → Nat → Except Error Nat
  writeOk : Bool
  flushOk : Bool
  createOk : Bool

/-- Recording limits from `RecordingConfig` (u32 minutes / MB; 0 = off). -/
structure RecCfg where
  maxDurationMinutes : Nat
  maxFilesizeMb : Nat
  deriving DecidableEq, Repr

/-- `(config.max_duration_minutes as f64) * 60.0` (exact in f64). -/
def RecCfg.maxDurationSecs (cfg : RecCfg) : ℚ := (cfg.maxDurationMinutes : ℚ) * 60

/-- `(config.max_filesize_mb as u64) * 1024 * 1024`. -/
def RecCfg.maxFilesizeBytes (cfg : RecCfg) : Nat := cfg.maxFilesizeMb * 1024 * 1024

/-- `resolve_url` (src/stream/discovery.rs lines 206–214): absolute URLs
pass through; otherwise `Url::parse(base)?.join(path)?`, modeled by the
`join` oracle. -/
def resolveUrl (join : String → String → Option String) (base path : String) :
    Except Error String :=
  if startsWithL path.data "http://".data = true ∨
      startsWithL path.data "https://".data = true then
    .ok path
  else
    match join base path with
    | some u => .ok u
    | none => .error .urlParse

/-- `download_segment_with_retry` attempt loop body (lines 56–66): try
attempt `i`, then up to `rem` further attempts, remembering the last
error. -/
def downloadGo (att : Nat → Except Error Nat) : Nat → Nat → Option Error →
    Except Error Nat
  | _, 0, last => .error (last.getD .segmentDownloadFailed)
  | i, rem + 1, _ =>
    match att i with
    | .ok data => .ok data
    | .error e => downloadGo att (i + 1) rem (some e)

/-- `download_segment_with_retry(client, url, max_retries)`. -/
def downloadSegmentWithRetry (att : Nat → Except Error Nat) (maxRetries : Nat) :
    Except Error Nat :=
  downloadGo att 0 maxRetries none

/-- `should_split_file` (src/stream/recorder.rs lines 174–187). -/
def shouldSplitFile (duration : ℚ) (size : Nat)
    (maxDurationSecs : ℚ) (maxFilesizeBytes : Nat) : Bool :=
  if 0 < maxDurationSecs ∧ maxDurationSecs ≤ duration then true
  else if 0 < maxFilesizeBytes ∧ maxFilesizeBytes ≤ size then true
  else false

/-- Counter/stat accumulation after a successful segment write (lines
103–111): per-file size and duration grow, stats grow, the tracker
advances. -/
def accumSegment (st : RecState) (seg : MediaSegment) (seq bytes : Nat) :
    RecState :=
  { tracker := st.tracker.updateSequence seq
    fileSequence := st.fileSequence
    fileDuration := st.fileDuration + seg.duration
    fileSize := st.fileSize + bytes
    stats :=
      { segmentsDownloaded := st.stats.segmentsDownloaded + 1
        bytesWritten := st.stats.bytesWritten + bytes
        durationSeconds := st.stats.durationSeconds + seg.duration
        filesCreated := st.stats.filesCreated } }

/-- File rotation on split (lines 120–135): increment the file sequence
suffix, reset per-file duration and size, count the new file. -/
def splitFile (st : RecState) : RecState :=
  { st with
    fileSequence := st.fileSequence + 1
    fileDuration := 0
    fileSize := 0
    stats := { st.stats with filesCreated := st.stats.filesCreated + 1 } }

/-- Per-segment body of the capture loop (lines 92–154): extract the
sequence; skip unparseable or non-new entries; resolve the absolute URL
(`?` — failure aborts); download with 3 retries (failure absorbed: the
segment is skipped and the tracker does not advance); write (`?`),
accumulate counters, advance the tracker, then split the file when the
policy fires (flush/create failures abort as `Io`). -/
def processSegment (env : RecEnv) (cfg : RecCfg) (hlsSource : String)
    (st : RecState) (seg : MediaSegment) : Except Error RecState :=
  match extractSequence seg.uri with
  | none => .ok st
  | some seq =>
    if st.tracker.isNewSegment seq then
      match resolveUrl env.join hlsSource seg.uri with
      | .error e => .error e
      | .ok segmentUrl =>
        match downloadSegmentWithRetry (env.attempt segmentUrl) 3 with
        | .error _ => .ok st
        | .ok bytes =>
          if env.writeOk then
            if shouldSplitFile (st.fileDuration + seg.duration)
                (st.fileSize + bytes) cfg.maxDurationSecs cfg.maxFilesizeBytes then
              if env.flushOk then
                if env.createOk then .ok (splitFile (accumSegment st seg seq bytes))
                else .error .io
              else .error .io
            else .ok (accumSegment st seg seq bytes)
          else .error .io
    else .ok st

/-- All listed segments of one playlist poll, in order. -/
def processSegments (env : RecEnv) (cfg : RecCfg) (hlsSource : String) :
    List MediaSegment → RecState → Except Error RecState
  | [], st => .ok st
  | seg :: rest, st =>
    match processSegment env cfg hlsSource st seg with
    | .error e => .error e
    | .ok st' => processSegments env cfg hlsSource rest st'

/-- What one poll of the media playlist produced. -/
inductive PollInput where
  | fetchFail
  | parseFail
  | playlist (endList : Bool) (segments : List MediaSegment)

/-- Outcome of one iteration of the capture loop. -/
inductive IterOutcome where
  | next (st : RecState)
  | stop (st : RecState)
  | fail (e : Error)
  deriving DecidableEq, Repr

/-- One iteration of the capture loop (lines 60–158): playlist fetch or
parse failure is absorbed (sleep and retry with unchanged state);
`#EXT-X-ENDLIST` stops normally; otherwise the segments are processed. -/
def loopIteration (env : RecEnv) (cfg : RecCfg) (hlsSource : String)
    (input : PollInput) (st : RecState) : IterOutcome :=
  match input with
  | .fetchFail => .next st
  | .parseFail => .next st
  | .playlist endList segs =>
    if endList then .stop st
    else
      match processSegments env cfg hlsSource segs st with
      | .error e => .fail e
      | .ok st' => .next st'

end CR

namespace CR

/-- Initial capture-loop state (lines 29–39): fresh tracker, file sequence
suffix 0, zero per-file counters, one file created. -/
def initialRecState : RecState :=
  ⟨SegmentTracker.new, 0, 0, 0, ⟨0, 0, 0, 1⟩⟩

theorem resolveUrl_error {join : String → String → Option String}
    {base path : String} {e : Error}
    (h : resolveUrl join base path = .error e) : e = .urlParse := by
  unfold resolveUrl at h
  split at h
  · exact absurd h (by simp)
  · cases hj : join base path with
    | some u => rw [hj] at h; exact absurd h (by simp)
    | none => rw [hj] at h; injection h with h'; exact h'.symm

/-- Every abort of the per-segment body is a filesystem (`Io`) or
URL-resolution (`UrlParse`) error. -/
theorem processSegment_error {env : RecEnv} {cfg : RecCfg} {hls : String}
    {st : RecState} {seg : MediaSegment} {e : Error}
    (h : processSegment env cfg hls st seg = .error e) :
    e = .io ∨ e = .urlParse := by
  unfold processSegment at h
  split at h
  · exact absurd h (by simp)
  · split at h
    · split at h
      · rename_i heqres
        injection h with h'
        exact Or.inr (h' ▸ resolveUrl_error heqres)
      · split at h
        · exact absurd h (by simp)
        · split at h
          · split at h
            · split at h
              · split at h
                · exact absurd h (by simp)
                · injection h with h'
                  exact Or.inl h'.symm
              · injection h with h'
                exact Or.inl h'.symm
            · exact absurd h (by simp)
          · injection h with h'
            exact Or.inl h'.symm
    · exact absurd h (by simp)

end CR

/-- C5 (amended): inside the capture loop, playlist fetch failures and
playlist parse failures are absorbed (the iteration continues with
unchanged state), and a per-segment download that still fails after its
3 retries is absorbed (the segment is skipped, the state — including the
tracker — unchanged); every abort of segment processing is either a local
filesystem error (`Io`: write, flush or create failure) or a segment-URL
resolution failure (`UrlParse`), the latter being a non-filesystem abort
path the original claim omits. -/
theorem C5_recorder_error_paths :
    (∀ (env : CR.RecEnv) (cfg : CR.RecCfg) (hls : String) (st : CR.RecState),
      CR.loopIteration env cfg hls .fetchFail st = .next st) ∧
    (∀ (env : CR.RecEnv) (cfg : CR.RecCfg) (hls : String) (st : CR.RecState),
      CR.loopIteration env cfg hls .parseFail st = .next st) ∧
    (∀ (env : CR.RecEnv) (cfg : CR.RecCfg) (hls : String) (st : CR.RecState)
      (seg : CR.MediaSegment) (seq : Nat) (u : String) (e : CR.Error),
      CR.extractSequence seg.uri = some seq →
      CR.resolveUrl env.join hls seg.uri = .ok u →
      CR.downloadSegmentWithRetry (env.attempt u) 3 = .error e →
      CR.processSegment env cfg hls st seg = .ok st) ∧
    (∀ (env : CR.RecEnv) (cfg : CR.RecCfg) (hls : String)
      (segs : List CR.MediaSegment) (st : CR.RecState) (e : CR.Error),
      CR.processSegments env cfg hls segs st = .error e →
      e = .io ∨ e = .urlParse) := by
  refine ⟨fun _ _ _ _ => rfl, fun _ _ _ _ => rfl, ?_, ?_⟩
  · intro env cfg hls st seg seq u e hext hres hdl
    by_cases hnew : st.tracker.isNewSegment seq
    · simp [CR.processSegment, hext, hnew, hres, hdl]
    · simp [CR.processSegment, hext, hnew]
  · intro env cfg hls segs
    induction segs with
    | nil => intro st e h; exact absurd h (by simp [CR.processSegments])
    | cons seg rest ih =>
      intro st e h
      unfold CR.processSegments at h
      cases hps : CR.processSegment env cfg hls st seg with
      | error e1 =>
        rw [hps] at h
        injection h with h'
        exact h' ▸ CR.processSegment_error hps
      | ok st' => rw [hps] at h; exact ih st' e h

/-- C5 witness: concrete run through the absorbed-download branch and the
error classification. -/
theorem C5_recorder_error_paths_witness :
    CR.extractSequence "a_2.ts" = some 2 ∧
    CR.resolveUrl (fun _ _ => none) "base" "a_2.ts" =
      .error CR.Error.urlParse ∧
    CR.resolveUrl (fun _ _ => some "j") "base" "a_2.ts" = .ok "j" ∧
    CR.downloadSegmentWithRetry
      ((⟨fun _ _ => some "j", fun _ _ => .error .network, true, true, true⟩ :
        CR.RecEnv).attempt "j") 3 = .error .network ∧
    CR.processSegment
      (⟨fun _ _ => some "j", fun _ _ => .error .network, true, true, true⟩ :
        CR.RecEnv) ⟨0, 0⟩ "base" CR.initialRecState ⟨"a_2.ts", 1⟩ =
      .ok CR.initialRecState := by
  refine ⟨by decide, rfl, rfl, rfl, ?_⟩
  exact C5_recorder_error_paths.2.2.1 _ ⟨0, 0⟩ "base" CR.initialRecState
    ⟨"a_2.ts", 1⟩ 2 "j" .network (by decide) rfl rfl

/-- C5 (counterexample): the claim that the recorder fails *only* on
local filesystem conditions is false on the code: `record_stream`
propagates `resolve_segment_url` failures with `?`, so a segment-URL
resolution failure (a parse problem, not a filesystem condition) aborts
segment processing with `UrlParse`, even though the filesystem oracle
accepts every operation. -/
theorem C5_recorder_error_paths_counterexample :
    CR.processSegment
      (⟨fun _ _ => none, fun _ _ => .ok 7, true, true, true⟩ : CR.RecEnv)
      ⟨0, 0⟩ "not a url" CR.initialRecState ⟨"seg_1.ts", 1⟩ =
      .error .urlParse ∧
    CR.Error.urlParse ≠ CR.Error.io := by
  exact ⟨rfl, by decide⟩

/-- C7: `should_split_file` fires iff a configured positive max-duration
limit is met/exceeded by the file's accumulated duration, or a configured
positive max-filesize limit is met/exceeded by its accumulated size; a
limit of 0 disables that dimension, and the dimensions are independent
(maxDuration=0, maxFilesize=10MB splits exactly on reaching 10MB whatever
the duration, and vice versa).  In the capture loop, a successfully
written segment is followed by opening a new output file with an
incremented sequence suffix and reset per-file counters iff the policy
fires on the updated counters. -/
theorem C7_file_split_policy :
    (∀ (d : ℚ) (size : Nat) (md : ℚ) (ms : Nat),
      CR.shouldSplitFile d size md ms = true ↔
        ((0 < md ∧ md ≤ d) ∨ (0 < ms ∧ ms ≤ size))) ∧
    (∀ (d : ℚ) (size : Nat),
      CR.shouldSplitFile d size (CR.RecCfg.maxDurationSecs ⟨0, 10⟩)
          (CR.RecCfg.maxFilesizeBytes ⟨0, 10⟩) = true ↔
        10 * 1024 * 1024 ≤ size) ∧
    (∀ (d : ℚ) (size : Nat),
      CR.shouldSplitFile d size (CR.RecCfg.maxDurationSecs ⟨30, 0⟩)
          (CR.RecCfg.maxFilesizeBytes ⟨30, 0⟩) = true ↔
        (1800 : ℚ) ≤ d) ∧
    (∀ (env : CR.RecEnv) (cfg : CR.RecCfg) (hls : String) (st : CR.RecState)
      (seg : CR.MediaSegment) (seq : Nat) (u : String) (bytes : Nat),
      CR.extractSequence seg.uri = some seq →
      st.tracker.isNewSegment seq = true →
      CR.resolveUrl env.join hls seg.uri = .ok u →
      CR.downloadSegmentWithRetry (env.attempt u) 3 = .ok bytes →
      env.writeOk = true → env.flushOk = true → env.createOk = true →
      ∃ st', CR.processSegment env cfg hls st seg = .ok st' ∧
        ((st'.fileSequence = st.fileSequence + 1 ∧ st'.fileDuration = 0 ∧
            st'.fileSize = 0 ∧
            st'.stats.filesCreated = st.stats.filesCreated + 1) ↔
          CR.shouldSplitFile (st.fileDuration + seg.duration)
            (st.fileSize + bytes) cfg.maxDurationSecs cfg.maxFilesizeBytes
            = true) ∧
        (CR.shouldSplitFile (st.fileDuration + seg.duration)
            (st.fileSize + bytes) cfg.maxDurationSecs cfg.maxFilesizeBytes
            = false →
          st'.fileSequence = st.fileSequence ∧
          st'.fileDuration = st.fileDuration + seg.duration ∧
          st'.fileSize = st.fileSize + bytes ∧
          st'.stats.filesCreated = st.stats.filesCreated)) := by
  have hiff : ∀ (d : ℚ) (size : Nat) (md : ℚ) (ms : Nat),
      CR.shouldSplitFile d size md ms = true ↔
        ((0 < md ∧ md ≤ d) ∨ (0 < ms ∧ ms ≤ size)) := by
    intro d size md ms
    unfold CR.shouldSplitFile
    by_cases h1 : 0 < md ∧ md ≤ d
    · simp [h1]
    · by_cases h2 : 0 < ms ∧ ms ≤ size <;> simp [h1, h2]
  refine ⟨hiff, ?_, ?_, ?_⟩
  · intro d size
    rw [hiff]
    simp [CR.RecCfg.maxDurationSecs, CR.RecCfg.maxFilesizeBytes]
  · intro d size
    rw [hiff]
    simp [CR.RecCfg.maxDurationSecs, CR.RecCfg.maxFilesizeBytes]
    norm_num
  · intro env cfg hls st seg seq u bytes hext hnew hres hdl hw hf hc
    by_cases hsplit : CR.shouldSplitFile (st.fileDuration + seg.duration)
        (st.fileSize + bytes) cfg.maxDurationSecs cfg.maxFilesizeBytes
    · refine ⟨CR.splitFile (CR.accumSegment st seg seq bytes), ?_, ?_, ?_⟩
      · simp [CR.processSegment, hext, hnew, hres, hdl, hw, hsplit, hf, hc]
      · simp [CR.splitFile, CR.accumSegment, hsplit]
      · intro hfalse
        rw [hsplit] at hfalse
        exact absurd hfalse (by simp)
    · refine ⟨CR.accumSegment st seg seq bytes, ?_, ?_, ?_⟩
      · simp [CR.processSegment, hext, hnew, hres, hdl, hw, hsplit]
      · simp only [Bool.not_eq_true] at hsplit
        simp [CR.accumSegment, hsplit]
      · intro _
        simp [CR.accumSegment]

/-- C7 witness: a segment write below both limits does not rotate the
file; the theorem applied at a concrete successful download. -/
theorem C7_file_split_policy_witness :
    ∃ st', CR.processSegment
        (⟨fun _ _ => some "u", fun _ _ => .ok 5, true, true, true⟩ : CR.RecEnv)
        ⟨0, 10⟩ "base" CR.initialRecState ⟨"a_1.ts", 2⟩ = .ok st' ∧
      ((st'.fileSequence = CR.initialRecState.fileSequence + 1 ∧
          st'.fileDuration = 0 ∧ st'.fileSize = 0 ∧
          st'.stats.filesCreated =
            CR.initialRecState.stats.filesCreated + 1) ↔
        CR.shouldSplitFile (CR.initialRecState.fileDuration + 2)
          (CR.initialRecState.fileSize + 5)
          (CR.RecCfg.maxDurationSecs ⟨0, 10⟩)
          (CR.RecCfg.maxFilesizeBytes ⟨0, 10⟩) = true) ∧
      (CR.shouldSplitFile (CR.initialRecState.fileDuration + 2)
          (CR.initialRecState.fileSize + 5)
          (CR.RecCfg.maxDurationSecs ⟨0, 10⟩)
          (CR.RecCfg.maxFilesizeBytes ⟨0, 10⟩) = false →
        st'.fileSequence = CR.initialRecState.fileSequence ∧
        st'.fileDuration = CR.initialRecState.fileDuration + 2 ∧
        st'.fileSize = CR.initialRecState.fileSize + 5 ∧
        st'.stats.filesCreated = CR.initialRecState.stats.filesCreated) :=
  C7_file_split_policy.2.2.2 _ ⟨0, 10⟩ "base" CR.initialRecState
    ⟨"a_1.ts", 2⟩ 1 "u" 5 (by decide) (by decide) rfl rfl rfl rfl rfl

/-- C10: a freshly constructed `SegmentTracker` has `last_sequence = 0`,
so `is_new_segment(0)` is false on a new tracker — and on every tracker,
since `last_sequence` is a `u64` (never below 0); hence in the capture
loop a segment whose extracted sequence number is 0 is never classified
as new and is never downloaded (the per-segment body returns the state
unchanged for every environment, consulting no oracle). -/
theorem C10_sequence_zero_never_downloaded :
    CR.SegmentTracker.new.lastSequence = 0 ∧
    CR.SegmentTracker.new.isNewSegment 0 = false ∧
    (∀ t : CR.SegmentTracker, t.isNewSegment 0 = false) ∧
    (∀ (env : CR.RecEnv) (cfg : CR.RecCfg) (hls : String) (st : CR.RecState)
      (seg : CR.MediaSegment), CR.extractSequence seg.uri = some 0 →
      CR.processSegment env cfg hls st seg = .ok st) ∧
    CR.extractSequence "seg_0.ts" = some 0 := by
  refine ⟨rfl, rfl, ?_, ?_, by decide⟩
  · intro t
    simp [CR.SegmentTracker.isNewSegment]
  · intro env cfg hls st seg hext
    have hnew : st.tracker.isNewSegment 0 = false := by
      simp [CR.SegmentTracker.isNewSegment]
    simp [CR.processSegment, hext, hnew]

/-- C10 witness: the capture-loop part applied to the concrete segment
URI `seg_0.ts` on the initial state. -/
theorem C10_sequence_zero_never_downloaded_witness :
    CR.extractSequence "seg_0.ts" = some 0 ∧
    CR.processSegment
      (⟨fun _ _ => some "u", fun _ _ => .ok 5, true, true, true⟩ : CR.RecEnv)
      ⟨0, 0⟩ "base" CR.initialRecState ⟨"seg_0.ts", 1⟩ =
      .ok CR.initialRecState :=
  ⟨by decide, C10_sequence_zero_never_downloaded.2.2.2.1 _ ⟨0, 0⟩ "base"
    CR.initialRecState ⟨"seg_0.ts", 1⟩ (by decide)⟩

namespace CR

/-! ## Room monitor (`src/stream/monitor.rs`) -/

/-- `RoomStatus` enum. -/
inductive RoomStatus where
  | unknown
  | offline
  | privateRoom
  | recording
  | cookieDead
  deriving DecidableEq, Repr

/-- `RoomErrorKind` enum (`Private` is a Lean keyword; renamed). -/
inductive RoomErrorKind where
  | offline
  | privateKind
  | serverError
  | cloudflare
  | other
  deriving DecidableEq, Repr

/-- `RoomCheckState`: per-room backoff/dedup state.  `Instant` is modeled
as a `Nat` timestamp, `Duration` as a `Nat` interval. -/
structure RoomCheckState where
  lastErrorKind : Option RoomErrorKind
  consecutiveSameError : Nat
  nextCheckAt : Option Nat
  deriving DecidableEq, Repr

/-- `RoomCheckState::new`. -/
def RoomCheckState.new : RoomCheckState := ⟨none, 0, none⟩

/-- `RoomCheckState::record_error` (lines 58–74): on a *new* error kind,
reset the count to 1 and schedule the next check one base interval ahead;
on a repeat of the same kind, increment the count and schedule
`base * 2^min(count, 6)` ahead.  Returns the updated state and whether
the error was new (should be logged). -/
def RoomCheckState.recordError (st : RoomCheckState) (kind : RoomErrorKind)
    (now baseInterval : Nat) : RoomCheckState × Bool :=
  if st.lastErrorKind ≠ some kind then
    (⟨some kind, 1, some (now + baseInterval)⟩, true)
  else
    let c := st.consecutiveSameError + 1
    (⟨st.lastErrorKind, c, some (now + baseInterval * 2 ^ min c 6)⟩, false)

/-- `RoomCheckState::record_success` (lines 77–81). -/
def RoomCheckState.recordSuccess (_ : RoomCheckState) : RoomCheckState :=
  ⟨none, 0, none⟩

/-- `RoomCheckState::should_skip` (lines 84–88). -/
def RoomCheckState.shouldSkip (st : RoomCheckState) (now : Nat) : Bool :=
  match st.nextCheckAt with
  | some t => decide (now < t)
  | none => false

/-- One monitored room as the per-cycle loop sees it: its name, whether a
recording task is currently active for it, and its backoff state. -/
structure RoomEntry where
  name : String
  isRecording : Bool
  state : RoomCheckState
  deriving DecidableEq, Repr

/-- The per-room check eligibility test of the cycle loop (lines
178–187): a room is skipped iff the cookie-death flag is clear *and* its
backoff window is open; otherwise `checked_count` is incremented and the
discovery check runs.  (The loop never consults `is_recording` here.) -/
def roomIsChecked (cookieDead : Bool) (now : Nat) (e : RoomEntry) : Bool :=
  !(!cookieDead && e.state.shouldSkip now)

/-- The rooms that receive a discovery check in one cycle, in order. -/
def checkedThisCycle (cookieDead : Bool) (now : Nat)
    (rooms : List RoomEntry) : List RoomEntry :=
  rooms.filter (roomIsChecked cookieDead now)

/-! ### Cookie-death aggregate detection (lines 265–305) -/

/-- The cookie-death control flags held across cycles. -/
structure CookieFlags where
  cookieDead : Bool
  cookieDeadAlerted : Bool
  deriving DecidableEq, Repr

/-- Webhook notifications the cycle can emit. -/
inductive WebhookEvent where
  | alert
  | recovery
  deriving DecidableEq, Repr

/-- `HashMap::insert` on the status map, modeled on an association list. -/
def setStatus : List (String × RoomStatus) → String → RoomStatus →
    List (String × RoomStatus)
  | [], room, status => [(room, status)]
  | (k, v) :: rest, room, status =>
    if k = room then (room, status) :: rest
    else (k, v) :: setStatus rest room status

/-- Status lookup (`Unknown` when absent, matching `get_status`). -/
def getStatus (m : List (String × RoomStatus)) (room : String) : RoomStatus :=
  match m with
  | [] => .unknown
  | (k, v) :: rest => if k = room then v else getStatus rest room

/-- Lines 281–285: set every non-recording room's status to `CookieDead`. -/
def setCookieDeadStatuses (rooms activeRecordings : List String)
    (statuses : List (String × RoomStatus)) : List (String × RoomStatus) :=
  rooms.foldl
    (fun m room =>
      if room ∈ activeRecordings then m else setStatus m room .cookieDead)
    statuses

/-- The end-of-cycle cookie-death block (lines 265–305): with the cycle's
`private_count`/`cloudflare_count`/`checked_count` tallies, enter
credential death when ≥1 room was checked and auth failures are ≥ half
of the checked rooms (on entry: flag set, every non-recording room's
status → CookieDead, one webhook alert); exit when the flag is set and a
cycle checked ≥1 room with zero auth failures (recovery webhook, every
room's backoff reset). -/
def cookieDeathUpdate (rooms activeRecordings : List String)
    (privateCount cloudflareCount checkedCount : Nat) (flags : CookieFlags)
    (statuses : List (String × RoomStatus))
    (checkStates : List (String × RoomCheckState)) :
    CookieFlags × List (String × RoomStatus) ×
      List (String × RoomCheckState) × List WebhookEvent :=
  let authFailCount := privateCount + cloudflareCount
  if 0 < checkedCount ∧ 0 < authFailCount ∧ checkedCount ≤ authFailCount * 2 then
    let (flags1, statuses1) :=
      if !flags.cookieDead then
        (⟨true, false⟩, setCookieDeadStatuses rooms activeRecordings statuses)
      else (flags, statuses)
    if !flags1.cookieDeadAlerted then
      (⟨flags1.cookieDead, true⟩, statuses1, checkStates, [.alert])
    else (flags1, statuses1, checkStates, [])
  else if flags.cookieDead ∧ authFailCount = 0 ∧ 0 < checkedCount then
    (⟨false, false⟩, statuses,
      checkStates.map (fun p => (p.1, p.2.recordSuccess)), [.recovery])
  else (flags, statuses, checkStates, [])

end CR

namespace CR

theorem getStatus_setStatus_self (m : List (String × RoomStatus))
    (room : String) (status : RoomStatus) :
    getStatus (setStatus m room status) room = status := by
  induction m with
  | nil => simp [setStatus, getStatus]
  | cons kv rest ih =>
    by_cases hk : kv.1 = room
    · simp [setStatus, hk, getStatus]
    · simp [setStatus, hk, getStatus, ih]

theorem getStatus_setStatus_other {m : List (String × RoomStatus)}
    {room other : String} (status : RoomStatus) (h : other ≠ room) :
    getStatus (setStatus m room status) other = getStatus m other := by
  induction m with
  | nil =>
    simp only [setStatus, getStatus]
    rw [if_neg (fun heq => h heq.symm)]
  | cons kv rest ih =>
    by_cases hk : kv.1 = room
    · simp [setStatus, hk, getStatus, Ne.symm h, ih]
    · simp [setStatus, hk, getStatus, ih]

theorem setCookieDeadStatuses_preserve
    (rooms activeRecordings : List String)
    (m : List (String × RoomStatus)) (room : String)
    (h : getStatus m room = .cookieDead) :
    getStatus (setCookieDeadStatuses rooms activeRecordings m) room =
      .cookieDead := by
  induction rooms generalizing m with
  | nil => exact h
  | cons r rest ih =>
    unfold setCookieDeadStatuses at ih ⊢
    simp only [List.foldl_cons]
    by_cases hr : r ∈ activeRecordings
    · rw [if_pos hr]; exact ih m h
    · rw [if_neg hr]
      refine ih _ ?_
      by_cases hrr : room = r
      · subst hrr; exact getStatus_setStatus_self m room _
      · rw [getStatus_setStatus_other _ hrr]; exact h

/-- After the entry sweep, every non-recording room of the monitored list
reads `CookieDead`. -/
theorem setCookieDeadStatuses_spec (rooms activeRecordings : List String)
    (m : List (String × RoomStatus)) (room : String)
    (hmem : room ∈ rooms) (hrec : room ∉ activeRecordings) :
    getStatus (setCookieDeadStatuses rooms activeRecordings m) room =
      .cookieDead := by
  induction rooms generalizing m with
  | nil => cases hmem
  | cons r rest ih =>
    unfold setCookieDeadStatuses at ih ⊢
    simp only [List.foldl_cons]
    rcases List.mem_cons.1 hmem with heq | hmem'
    · subst heq
      rw [if_neg hrec]
      exact setCookieDeadStatuses_preserve rest activeRecordings _ room
        (getStatus_setStatus_self m room _)
    · by_cases hr : r ∈ activeRecordings
      · rw [if_pos hr]; exact ih m hmem'
      · rw [if_neg hr]; exact ih _ hmem' 

end CR

/-- C4: with the credential-death flag clear, the end-of-cycle detection
sets it iff at least one room was checked and
`(privateCount + cloudflareCount) × 2 ≥ checkedCount` (the code's extra
`authFailCount > 0` conjunct is implied); on entry every non-recording
room's status becomes `CookieDead` and exactly one webhook alert fires;
while the flag is set with the alert already sent, a further failing
cycle changes nothing and emits nothing; and a cycle that checked ≥1 room
with zero auth failures while the flag is set clears it, fires one
recovery webhook, leaves statuses unchanged and resets every room's
backoff state.  Concretely, 4 rooms checked with 2 Private engage
credential death; 5 rooms checked with 2 Private do not. -/
theorem C4_cookie_death_detection :
    (∀ (rooms recs : List String) (p c checked : Nat) (flags : CR.CookieFlags)
      (statuses : List (String × CR.RoomStatus))
      (states : List (String × CR.RoomCheckState)),
      flags.cookieDead = false →
      ((CR.cookieDeathUpdate rooms recs p c checked flags statuses
          states).1.cookieDead = true ↔
        0 < checked ∧ checked ≤ (p + c) * 2)) ∧
    (∀ (rooms recs : List String) (p c checked : Nat) (flags : CR.CookieFlags)
      (statuses : List (String × CR.RoomStatus))
      (states : List (String × CR.RoomCheckState)),
      flags.cookieDead = false → 0 < checked → checked ≤ (p + c) * 2 →
      (CR.cookieDeathUpdate rooms recs p c checked flags statuses states).1 =
          ⟨true, true⟩ ∧
        (∀ room ∈ rooms, room ∉ recs →
          CR.getStatus (CR.cookieDeathUpdate rooms recs p c checked flags
            statuses states).2.1 room = .cookieDead) ∧
        (CR.cookieDeathUpdate rooms recs p c checked flags statuses
          states).2.2.2 = [.alert]) ∧
    (∀ (rooms recs : List String) (p c checked : Nat)
      (statuses : List (String × CR.RoomStatus))
      (states : List (String × CR.RoomCheckState)),
      0 < checked → checked ≤ (p + c) * 2 →
      CR.cookieDeathUpdate rooms recs p c checked ⟨true, true⟩ statuses
        states = (⟨true, true⟩, statuses, states, [])) ∧
    (∀ (rooms recs : List String) (p c checked : Nat) (flags : CR.CookieFlags)
      (statuses : List (String × CR.RoomStatus))
      (states : List (String × CR.RoomCheckState)),
      flags.cookieDead = true → p + c = 0 → 0 < checked →
      CR.cookieDeathUpdate rooms recs p c checked flags statuses states =
          (⟨false, false⟩, statuses,
            states.map (fun q => (q.1, q.2.recordSuccess)), [.recovery]) ∧
        ∀ q ∈ (CR.cookieDeathUpdate rooms recs p c checked flags statuses
          states).2.2.1, q.2 = CR.RoomCheckState.new) ∧
    (CR.cookieDeathUpdate [] [] 2 0 4 ⟨false, false⟩ [] []).1.cookieDead
        = true ∧
    (CR.cookieDeathUpdate [] [] 2 0 5 ⟨false, false⟩ [] []).1.cookieDead
        = false := by
  refine ⟨?_, ?_, ?_, ?_, by decide, by decide⟩
  · intro rooms recs p c checked flags statuses states hdead
    by_cases hcond : 0 < checked ∧ 0 < p + c ∧ checked ≤ (p + c) * 2
    · simp only [CR.cookieDeathUpdate, if_pos hcond, hdead,
        Bool.not_false, if_pos rfl]
      simp
      omega
    · simp only [CR.cookieDeathUpdate, if_neg hcond]
      rw [if_neg (by simp [hdead])]
      simp [hdead]
      omega
  · intro rooms recs p c checked flags statuses states hdead hchk hauth
    have hcond : 0 < checked ∧ 0 < p + c ∧ checked ≤ (p + c) * 2 := by omega
    simp only [CR.cookieDeathUpdate, if_pos hcond, hdead, Bool.not_false,
      if_pos rfl]
    refine ⟨rfl, ?_, rfl⟩
    intro room hmem hrec
    simpa using CR.setCookieDeadStatuses_spec rooms recs statuses room hmem hrec
  · intro rooms recs p c checked statuses states hchk hauth
    have hcond : 0 < checked ∧ 0 < p + c ∧ checked ≤ (p + c) * 2 := by omega
    simp [CR.cookieDeathUpdate, if_pos hcond]
    omega
  · intro rooms recs p c checked flags statuses states hdead hauth hchk
    have hcond : ¬ (0 < checked ∧ 0 < p + c ∧ checked ≤ (p + c) * 2) := by
      omega
    have hexit : flags.cookieDead = true ∧ p + c = 0 ∧ 0 < checked :=
      ⟨hdead, hauth, hchk⟩
    simp only [CR.cookieDeathUpdate, if_neg hcond, if_pos hexit]
    refine ⟨trivial, ?_⟩
    intro q hq
    rcases List.mem_map.1 hq with ⟨q', _, hq'⟩
    rw [← hq']
    rfl

/-- C4 witness: the theorem's parts applied at a concrete cycle — one
room "a", not recording, 1 of 1 checked rooms Private: credential death
engages, "a" reads CookieDead, one alert fires; a later clean cycle
recovers and resets the backoff state. -/
theorem C4_cookie_death_detection_witness :
    ((CR.cookieDeathUpdate ["a"] [] 1 0 1 ⟨false, false⟩ []
        [("a", ⟨some .offline, 2, some 9⟩)]).1 = ⟨true, true⟩ ∧
      (∀ room ∈ ["a"], room ∉ ([] : List String) →
        CR.getStatus (CR.cookieDeathUpdate ["a"] [] 1 0 1 ⟨false, false⟩ []
          [("a", ⟨some .offline, 2, some 9⟩)]).2.1 room = .cookieDead) ∧
      (CR.cookieDeathUpdate ["a"] [] 1 0 1 ⟨false, false⟩ []
        [("a", ⟨some .offline, 2, some 9⟩)]).2.2.2 = [.alert]) ∧
    (CR.cookieDeathUpdate ["a"] [] 0 0 1 ⟨true, true⟩ []
        [("a", ⟨some .offline, 2, some 9⟩)] =
      (⟨false, false⟩, [],
        [("a", CR.RoomCheckState.new)], [.recovery])) := by
  constructor
  · exact C4_cookie_death_detection.2.1 ["a"] [] 1 0 1 ⟨false, false⟩ []
      [("a", ⟨some .offline, 2, some 9⟩)] rfl (by decide) (by decide)
  · exact (C4_cookie_death_detection.2.2.2.1 ["a"] [] 0 0 1 ⟨true, true⟩ []
      [("a", ⟨some .offline, 2, some 9⟩)] rfl (by decide) (by decide)).1

/-- C3 (counterexample): the claimed delay sequence base×2, ×4, ×8 for
three consecutive Offline results is false on the code: the first Offline
(a new error kind) schedules at base×1, not base×2 (with base 10 and
`now = 0`, `next_check_at` is 10, not 20); likewise an interleaved
Private resets the next Offline's delay to base×1, not base×2. -/
theorem C3_backoff_counterexample :
    ((CR.RoomCheckState.new.recordError .offline 0 10).1.nextCheckAt =
        some 10 ∧ some (10 : Nat) ≠ some (2 * 10 : Nat)) ∧
    ((((CR.RoomCheckState.new.recordError .offline 0 10).1.recordError
        .privateKind 0 10).1.recordError .offline 0 10).1.nextCheckAt =
        some 10 ∧ some (10 : Nat) ≠ some (2 * 10 : Nat)) := by
  decide

/-- C3 (amended): repeating the previous check's error kind schedules the
next check `base × 2^min(count, 6)` ahead, where `count` is the updated
consecutive-same-error count (hence ≥ 2: the ×2 step never occurs), cap
64×base; a changed error kind (the kind's first occurrence) schedules at
base×1 and resets the count to 1, and success clears the backoff schedule
entirely.  Hence three consecutive Offline results from a fresh state
schedule delays base×1, base×4, base×8, and a single interleaved Private
resets the next Offline to base×1 (the following one to base×4). -/
theorem C3_backoff_schedule :
    (∀ (st : CR.RoomCheckState) (kind : CR.RoomErrorKind) (now base : Nat),
      st.lastErrorKind = some kind →
      (st.recordError kind now base).1.nextCheckAt =
          some (now + base * 2 ^ min (st.consecutiveSameError + 1) 6) ∧
        (st.recordError kind now base).1.consecutiveSameError =
          st.consecutiveSameError + 1 ∧
        (st.recordError kind now base).2 = false) ∧
    (∀ (st : CR.RoomCheckState) (kind : CR.RoomErrorKind) (now base : Nat),
      st.lastErrorKind ≠ some kind →
      (st.recordError kind now base).1.nextCheckAt = some (now + base) ∧
        (st.recordError kind now base).1.consecutiveSameError = 1 ∧
        (st.recordError kind now base).2 = true) ∧
    (∀ (st : CR.RoomCheckState) (kind : CR.RoomErrorKind) (now base : Nat),
      st.lastErrorKind = some kind →
      ∃ d, d ≤ 64 * base ∧
        (st.recordError kind now base).1.nextCheckAt = some (now + d)) ∧
    (∀ st : CR.RoomCheckState, st.recordSuccess = CR.RoomCheckState.new) ∧
    (∀ base : Nat,
      (CR.RoomCheckState.new.recordError .offline 0 base).1.nextCheckAt =
          some (base * 1) ∧
        ((CR.RoomCheckState.new.recordError .offline 0 base).1.recordError
          .offline 0 base).1.nextCheckAt = some (base * 4) ∧
        (((CR.RoomCheckState.new.recordError .offline 0 base).1.recordError
          .offline 0 base).1.recordError .offline 0 base).1.nextCheckAt =
          some (base * 8)) ∧
    (∀ base : Nat,
      (((CR.RoomCheckState.new.recordError .offline 0 base).1.recordError
          .privateKind 0 base).1.recordError .offline 0 base).1.nextCheckAt =
          some (base * 1) ∧
        ((((CR.RoomCheckState.new.recordError .offline 0 base).1.recordError
          .privateKind 0 base).1.recordError .offline 0 base).1.recordError
          .offline 0 base).1.nextCheckAt = some (base * 4)) := by
  refine ⟨?_, ?_, ?_, fun _ => rfl, ?_, ?_⟩
  · intro st kind now base h
    simp [CR.RoomCheckState.recordError, h]
  · intro st kind now base h
    simp [CR.RoomCheckState.recordError, h]
  · intro st kind now base h
    refine ⟨base * 2 ^ min (st.consecutiveSameError + 1) 6, ?_, ?_⟩
    · have hmin : min (st.consecutiveSameError + 1) 6 ≤ 6 := Nat.min_le_right _ _
      have hpow : 2 ^ min (st.consecutiveSameError + 1) 6 ≤ 2 ^ 6 :=
        Nat.pow_le_pow_right (by norm_num) hmin
      calc base * 2 ^ min (st.consecutiveSameError + 1) 6
          ≤ base * 64 := Nat.mul_le_mul_left base (by simpa using hpow)
        _ = 64 * base := Nat.mul_comm _ _
    · simp [CR.RoomCheckState.recordError, h]
  · intro base
    refine ⟨?_, ?_, ?_⟩ <;>
      simp [CR.RoomCheckState.recordError, CR.RoomCheckState.new]
  · intro base
    refine ⟨?_, ?_⟩ <;>
      simp [CR.RoomCheckState.recordError, CR.RoomCheckState.new]

/-- C3 witness: the schedule formula at a concrete repeated Offline
(count 1 → 2, delay base×4 with base 10), and a concrete kind change
(delay base×1). -/
theorem C3_backoff_schedule_witness :
    ((⟨some .offline, 1, none⟩ : CR.RoomCheckState).lastErrorKind =
        some .offline ∧
      ((⟨some .offline, 1, none⟩ : CR.RoomCheckState).recordError .offline
          0 10).1.nextCheckAt = some (0 + 10 * 2 ^ min (1 + 1) 6)) ∧
    ((⟨some .offline, 1, none⟩ : CR.RoomCheckState).lastErrorKind ≠
        some .privateKind ∧
      ((⟨some .offline, 1, none⟩ : CR.RoomCheckState).recordError
          .privateKind 0 10).1.nextCheckAt = some (0 + 10)) := by
  constructor
  · exact ⟨rfl, (C3_backoff_schedule.1 ⟨some .offline, 1, none⟩ .offline 0 10
      rfl).1⟩
  · exact ⟨by decide, (C3_backoff_schedule.2.1 ⟨some .offline, 1, none⟩
      .privateKind 0 10 (by decide)).1⟩

/-- C8 (counterexample): the claim that a room currently recording
receives no discovery check is false on the code: the cycle's skip test
(lines 183–185) consults only the cookie-death flag and the backoff
window, so a recording room with no backoff scheduled is checked. -/
theorem C8_checked_counterexample :
    CR.checkedThisCycle false 0 [⟨"a", true, CR.RoomCheckState.new⟩] =
        [⟨"a", true, CR.RoomCheckState.new⟩] ∧
    (⟨"a", true, CR.RoomCheckState.new⟩ : CR.RoomEntry).isRecording = true := by
  constructor
  · rfl
  · rfl

/-- C8 (amended): in each monitor cycle a discovery check is performed
for a room iff the credential-death flag is set or the room is not inside
its backoff window; whether the room is currently recording does not
enter the eligibility test. -/
theorem C8_check_eligibility :
    (∀ (cookieDead : Bool) (now : Nat) (rooms : List CR.RoomEntry)
      (e : CR.RoomEntry),
      e ∈ CR.checkedThisCycle cookieDead now rooms ↔
        e ∈ rooms ∧
          (cookieDead = true ∨ e.state.shouldSkip now = false)) ∧
    (∀ (cookieDead : Bool) (now : Nat) (name : String) (b1 b2 : Bool)
      (st : CR.RoomCheckState),
      CR.roomIsChecked cookieDead now ⟨name, b1, st⟩ =
        CR.roomIsChecked cookieDead now ⟨name, b2, st⟩) := by
  constructor
  · intro cookieDead now rooms e
    rw [CR.checkedThisCycle, List.mem_filter]
    unfold CR.roomIsChecked
    cases cookieDead <;> cases he : e.state.shouldSkip now <;> simp [he]
  · intro cookieDead now name b1 b2 st
    rfl

namespace CR

/-! ## Output path generation (`src/fs/paths.rs`, `generate_output_path`) -/

/-- The opening-brace character of the template placeholders. -/
def lbrace : Char := Char.ofNat 123

/-- `str::replace` scanner: emit characters until the needle matches,
then emit the replacement and skip the needle's length, never rescanning
replacement text; `skip` counts match characters still to consume. -/
def replaceGo (needle repl : List Char) : List Char → Nat → List Char
  | [], _ => []
  | _ :: rest, skip + 1 => replaceGo needle repl rest skip
  | c :: rest, 0 =>
    if needle ≠ [] ∧ startsWithL (c :: rest) needle = true then
      repl ++ replaceGo needle repl rest (needle.length - 1)
    else c :: replaceGo needle repl rest 0

/-- `s.replace(needle, repl)` on `String`s (non-empty needles). -/
def strReplace (s needle repl : String) : String :=
  ⟨replaceGo needle.data repl.data s.data 0⟩

/-- The seven template placeholders of `generate_output_path`. -/
def phUsernameS : String := "\x7b\x7b.Username\x7d\x7d"

def phYearS : String := "\x7b\x7b.Year\x7d\x7d"

def phMonthS : String := "\x7b\x7b.Month\x7d\x7d"

def phDayS : String := "\x7b\x7b.Day\x7d\x7d"

def phHourS : String := "\x7b\x7b.Hour\x7d\x7d"

def phMinuteS : String := "\x7b\x7b.Minute\x7d\x7d"

def phSecondS : String := "\x7b\x7b.Second\x7d\x7d"

/-- The formatted local-time fields (`now.format("%Y")` etc.), an input
oracle for the wall clock. -/
structure TimeParts where
  year : String
  month : String
  day : String
  hour : String
  minute : String
  second : String
  deriving DecidableEq, Repr

/-- `generate_output_path` (src/fs/paths.rs lines 6–37): expand the seven
placeholders in order, append `_<sequence>` when `sequence > 0`, append
the fixed `.ts` extension, and join onto the output directory
(`PathBuf::join` modeled as a `/` separator). -/
def generateOutputPath (outputDir pattern room : String) (sequence : Nat)
    (now : TimeParts) : String :=
  let filename :=
    strReplace (strReplace (strReplace (strReplace (strReplace (strReplace
      (strReplace pattern phUsernameS room)
      phYearS now.year) phMonthS now.month) phDayS now.day)
      phHourS now.hour) phMinuteS now.minute) phSecondS now.second
  let filename := if 0 < sequence then filename ++ "_" ++ toString sequence
    else filename
  let filename := filename ++ ".ts"
  outputDir ++ "/" ++ filename

end CR

namespace CR

/-- An adversarial pattern that contains all seven placeholders (the
trailing text rebuilds a Year placeholder around the Username slot). -/
def adversarialPattern : String :=
  "\x7b\x7b.Year\x7d\x7d\x7b\x7b.Month\x7d\x7d\x7b\x7b.Day\x7d\x7d\x7b\x7b.Hour\x7d\x7d\x7b\x7b.Minute\x7d\x7d\x7b\x7b.Second\x7d\x7d\x7b\x7b.\x7b\x7b.Username\x7d\x7d\x7d\x7d"

end CR

/-- C9 (counterexample): the claim is false for an arbitrary pattern
containing all placeholders: with the adversarial pattern above and the
room name `Year` (a valid room name), expanding the Username placeholder
rebuilds a second Year placeholder, which the subsequent Year replacement
consumes, so the generated filename does not contain the room name at
all. -/
theorem C9_path_counterexample :
    (CR.containsSub CR.adversarialPattern CR.phUsernameS = true ∧
      CR.containsSub CR.adversarialPattern CR.phYearS = true ∧
      CR.containsSub CR.adversarialPattern CR.phMonthS = true ∧
      CR.containsSub CR.adversarialPattern CR.phDayS = true ∧
      CR.containsSub CR.adversarialPattern CR.phHourS = true ∧
      CR.containsSub CR.adversarialPattern CR.phMinuteS = true ∧
      CR.containsSub CR.adversarialPattern CR.phSecondS = true) ∧
    CR.generateOutputPath "d" CR.adversarialPattern "Year" 5
        ⟨"2026", "10", "12", "13", "45", "59"⟩ =
      "d/202610121345592026_5.ts" ∧
    CR.containsSub
      (CR.generateOutputPath "d" CR.adversarialPattern "Year" 5
        ⟨"2026", "10", "12", "13", "45", "59"⟩) "Year" = false := by
  refine ⟨⟨?_, ?_, ?_, ?_, ?_, ?_, ?_⟩, ?_, ?_⟩ <;> rfl

namespace CR

theorem replaceGo_skip (n r : List Char) :
    ∀ (x y : List Char), replaceGo n r (x ++ y) x.length = replaceGo n r y 0
  | [], _ => rfl
  | _ :: x', y => replaceGo_skip n r x' y

theorem startsWithL_append_self (y : List Char) :
    ∀ n : List Char, startsWithL (n ++ y) n = true
  | [] => by cases y <;> rfl
  | c :: n' => by simp [startsWithL, startsWithL_append_self y n']

/-- A match of the needle at the scan position is replaced and skipped. -/
theorem replaceGo_hit {n : List Char} (r y : List Char) (hne : n ≠ []) :
    replaceGo n r (n ++ y) 0 = r ++ replaceGo n r y 0 := by
  cases n with
  | nil => exact absurd rfl hne
  | cons c n' =>
    show replaceGo (c :: n') r (c :: (n' ++ y)) 0 = _
    rw [replaceGo]
    rw [if_pos ⟨hne, by simpa using startsWithL_append_self y (c :: n')⟩]
    have : n'.length = (c :: n').length - 1 := rfl
    rw [← this, replaceGo_skip]

/-- `x` never starts an occurrence of `n`, for any continuation: scanning
passes over `x` unchanged. -/
def SkipsAll (n x : List Char) : Prop :=
  ∀ (r y : List Char), replaceGo n r (x ++ y) 0 = x ++ replaceGo n r y 0

theorem SkipsAll.run {n x : List Char} (h : SkipsAll n x) (r : List Char) :
    replaceGo n r x 0 = x := by
  have hx := h r []
  simpa [replaceGo] using hx

theorem SkipsAll.append {n x x' : List Char} (h1 : SkipsAll n x)
    (h2 : SkipsAll n x') : SkipsAll n (x ++ x') := by
  intro r y
  rw [List.append_assoc, h1, h2, List.append_assoc]

/-- A brace-free block never starts a placeholder occurrence. -/
theorem skipsAll_of_bfree {n x : List Char} (hn : n.head? = some lbrace)
    (hx : lbrace ∉ x) : SkipsAll n x := by
  induction x with
  | nil => intro r y; rfl
  | cons c x' ih =>
    intro r y
    have hc : c ≠ lbrace := fun h => hx (h ▸ List.mem_cons_self c x')
    have hstart : startsWithL (c :: (x' ++ y)) n = false := by
      cases n with
      | nil => cases hn
      | cons n0 n'' =>
        have hn0 : n0 = lbrace := by
          simpa using hn
        rw [startsWithL]
        have : (c == n0) = false := by
          rw [hn0]
          exact beq_eq_false_iff_ne.2 hc
        simp [this]
    show replaceGo n r (c :: (x' ++ y)) 0 = _
    rw [replaceGo, if_neg (by simp [hstart])]
    have hx' : lbrace ∉ x' := fun h => hx (List.mem_cons_of_mem c h)
    rw [ih hx' r y]
    rfl

/-- `n` clashes with `m'` inside `m'`: some position `j` below both
lengths has differing characters, so no continuation can complete a
match of `n` starting at `m'`. -/
def clashWithin : List Char → List Char → Bool
  | _, [] => false
  | [], _ :: _ => false
  | a :: n', b :: m' => (a != b) || clashWithin n' m'

theorem startsWithL_eq_false_of_clash {n m : List Char}
    (h : clashWithin n m = true) (y : List Char) :
    startsWithL (m ++ y) n = false := by
  induction n generalizing m with
  | nil => cases m <;> simp [clashWithin] at h
  | cons a n' ih =>
    cases m with
    | nil => simp [clashWithin] at h
    | cons b m' =>
      show startsWithL (b :: (m' ++ y)) (a :: n') = false
      rw [startsWithL]
      have h' : ¬ a = b ∨ clashWithin n' m' = true := by
        simpa [clashWithin] using h
      rcases h' with hab | hcl
      · have hba : (b == a) = false :=
          beq_eq_false_iff_ne.2 fun hba => hab hba.symm
        simp [hba]
      · simp [ih hcl]

/-- Every occurrence of `n` beginning inside `m` dies inside `m`. -/
def blocksNeedle (n m : List Char) : Bool :=
  m.tails.all (fun m' => m'.isEmpty || clashWithin n m')

theorem skipsAll_of_blocks {n m : List Char} (h : blocksNeedle n m = true) :
    SkipsAll n m := by
  induction m with
  | nil => intro r y; rfl
  | cons c m' ih =>
    have hall := List.all_eq_true.1 h
    have hclash : clashWithin n (c :: m') = true := by
      have hm := hall (c :: m') (by rw [List.tails_cons]; exact List.mem_cons_self _ _)
      simpa using hm
    have hrest : blocksNeedle n m' = true := by
      refine List.all_eq_true.2 ?_
      intro t ht
      exact hall t (by rw [List.tails_cons]; exact List.mem_cons_of_mem _ ht)
    intro r y
    have hsw := startsWithL_eq_false_of_clash hclash y
    rw [List.cons_append] at hsw
    show replaceGo n r (c :: (m' ++ y)) 0 = _
    rw [replaceGo, if_neg (by simp [hsw])]
    rw [ih hrest r y]
    rfl

end CR

namespace CR

theorem strReplace_data (s needle repl : String) :
    (strReplace s needle repl).data =
      replaceGo needle.data repl.data s.data 0 := rfl

theorem string_data_append (a b : String) :
    (a ++ b).data = a.data ++ b.data := rfl

theorem toString_five_data : (toString (5 : Nat)).data = ['5'] := rfl

theorem replace_bfree_append (n x : List Char) (hn : n.head? = some lbrace)
    (hx : lbrace ∉ x) (r y : List Char) :
    replaceGo n r (x ++ y) 0 = x ++ replaceGo n r y 0 :=
  skipsAll_of_bfree hn hx r y

theorem replace_bfree_run (n x : List Char) (hn : n.head? = some lbrace)
    (hx : lbrace ∉ x) (r : List Char) : replaceGo n r x 0 = x :=
  (skipsAll_of_bfree hn hx).run r

theorem replace_blocks_append (n m : List Char) (hb : blocksNeedle n m = true)
    (r y : List Char) : replaceGo n r (m ++ y) 0 = m ++ replaceGo n r y 0 :=
  skipsAll_of_blocks hb r y

theorem replace_hit_append (n : List Char) (hne : n ≠ []) (r y : List Char) :
    replaceGo n r (n ++ y) 0 = r ++ replaceGo n r y 0 :=
  replaceGo_hit r y hne

end CR

set_option maxHeartbeats 2000000 in
/-- C9 (amended): for any pattern built as brace-free literal text
interleaved with the seven placeholders in replacement order, expanded
with a brace-free room name and brace-free time fields, the generated
path with sequence 5 is exactly the output directory, a `/`, the
pattern's literal pieces with each placeholder replaced by its value, an
underscore-joined `5` suffix and the fixed `.ts` extension — so it
contains the room name, every expanded date/time field, the `_5` suffix
and `.ts`; with sequence 0 the suffix is omitted and the rest unchanged. -/
theorem C9_path_generation (dir pat room : String) (tp : CR.TimeParts)
    (g0 g1 g2 g3 g4 g5 g6 g7 : List Char)
    (hpat : pat.data = g0 ++ CR.phUsernameS.data ++ g1 ++ CR.phYearS.data ++
      g2 ++ CR.phMonthS.data ++ g3 ++ CR.phDayS.data ++ g4 ++
      CR.phHourS.data ++ g5 ++ CR.phMinuteS.data ++ g6 ++
      CR.phSecondS.data ++ g7)
    (h0 : CR.lbrace ∉ g0) (h1 : CR.lbrace ∉ g1) (h2 : CR.lbrace ∉ g2)
    (h3 : CR.lbrace ∉ g3) (h4 : CR.lbrace ∉ g4) (h5 : CR.lbrace ∉ g5)
    (h6 : CR.lbrace ∉ g6) (h7 : CR.lbrace ∉ g7)
    (hroom : CR.lbrace ∉ room.data)
    (hyr : CR.lbrace ∉ tp.year.data) (hmo : CR.lbrace ∉ tp.month.data)
    (hdy : CR.lbrace ∉ tp.day.data) (hhr : CR.lbrace ∉ tp.hour.data)
    (hmi : CR.lbrace ∉ tp.minute.data) (hsc : CR.lbrace ∉ tp.second.data) :
    (CR.generateOutputPath dir pat room 5 tp).data =
      dir.data ++ '/' :: (g0 ++ room.data ++ g1 ++ tp.year.data ++ g2 ++
        tp.month.data ++ g3 ++ tp.day.data ++ g4 ++ tp.hour.data ++ g5 ++
        tp.minute.data ++ g6 ++ tp.second.data ++ g7 ++
        ('_' :: '5' :: '.' :: 't' :: 's' :: [])) ∧
    (CR.generateOutputPath dir pat room 0 tp).data =
      dir.data ++ '/' :: (g0 ++ room.data ++ g1 ++ tp.year.data ++ g2 ++
        tp.month.data ++ g3 ++ tp.day.data ++ g4 ++ tp.hour.data ++ g5 ++
        tp.minute.data ++ g6 ++ tp.second.data ++ g7 ++
        ('.' :: 't' :: 's' :: [])) := by
  have bfUx0 := CR.replace_bfree_append CR.phUsernameS.data (g0) (by decide) h0
  have bfUx1 := CR.replace_bfree_append CR.phUsernameS.data (g1) (by decide) h1
  have bfUx2 := CR.replace_bfree_append CR.phUsernameS.data (g2) (by decide) h2
  have bfUx3 := CR.replace_bfree_append CR.phUsernameS.data (g3) (by decide) h3
  have bfUx4 := CR.replace_bfree_append CR.phUsernameS.data (g4) (by decide) h4
  have bfUx5 := CR.replace_bfree_append CR.phUsernameS.data (g5) (by decide) h5
  have bfUx6 := CR.replace_bfree_append CR.phUsernameS.data (g6) (by decide) h6
  have bfUx7 := CR.replace_bfree_append CR.phUsernameS.data (g7) (by decide) h7
  have bfUx8 := CR.replace_bfree_append CR.phUsernameS.data (room.data) (by decide) hroom
  have bfUx9 := CR.replace_bfree_append CR.phUsernameS.data (tp.year.data) (by decide) hyr
  have bfUx10 := CR.replace_bfree_append CR.phUsernameS.data (tp.month.data) (by decide) hmo
  have bfUx11 := CR.replace_bfree_append CR.phUsernameS.data (tp.day.data) (by decide) hdy
  have bfUx12 := CR.replace_bfree_append CR.phUsernameS.data (tp.hour.data) (by decide) hhr
  have bfUx13 := CR.replace_bfree_append CR.phUsernameS.data (tp.minute.data) (by decide) hmi
  have bfUx14 := CR.replace_bfree_append CR.phUsernameS.data (tp.second.data) (by decide) hsc
  have hitU := CR.replace_hit_append CR.phUsernameS.data (by decide)
  have runU := CR.replace_bfree_run CR.phUsernameS.data g7 (by decide) h7
  have bkUY := CR.replace_blocks_append CR.phUsernameS.data CR.phYearS.data (by decide)
  have bkUMo := CR.replace_blocks_append CR.phUsernameS.data CR.phMonthS.data (by decide)
  have bkUD := CR.replace_blocks_append CR.phUsernameS.data CR.phDayS.data (by decide)
  have bkUH := CR.replace_blocks_append CR.phUsernameS.data CR.phHourS.data (by decide)
  have bkUMi := CR.replace_blocks_append CR.phUsernameS.data CR.phMinuteS.data (by decide)
  have bkUSe := CR.replace_blocks_append CR.phUsernameS.data CR.phSecondS.data (by decide)
  have bfYx0 := CR.replace_bfree_append CR.phYearS.data (g0) (by decide) h0
  have bfYx1 := CR.replace_bfree_append CR.phYearS.data (g1) (by decide) h1
  have bfYx2 := CR.replace_bfree_append CR.phYearS.data (g2) (by decide) h2
  have bfYx3 := CR.replace_bfree_append CR.phYearS.data (g3) (by decide) h3
  have bfYx4 := CR.replace_bfree_append CR.phYearS.data (g4) (by decide) h4
  have bfYx5 := CR.replace_bfree_append CR.phYearS.data (g5) (by decide) h5
  have bfYx6 := CR.replace_bfree_append CR.phYearS.data (g6) (by decide) h6
  have bfYx7 := CR.replace_bfree_append CR.phYearS.data (g7) (by decide) h7
  have bfYx8 := CR.replace_bfree_append CR.phYearS.data (room.data) (by decide) hroom
  have bfYx9 := CR.replace_bfree_append CR.phYearS.data (tp.year.data) (by decide) hyr
  have bfYx10 := CR.replace_bfree_append CR.phYearS.data (tp.month.data) (by decide) hmo
  have bfYx11 := CR.replace_bfree_append CR.phYearS.data (tp.day.data) (by decide) hdy
  have bfYx12 := CR.replace_bfree_append CR.phYearS.data (tp.hour.data) (by decide) hhr
  have bfYx13 := CR.replace_bfree_append CR.phYearS.data (tp.minute.data) (by decide) hmi
  have bfYx14 := CR.replace_bfree_append CR.phYearS.data (tp.second.data) (by decide) hsc
  have hitY := CR.replace_hit_append CR.phYearS.data (by decide)
  have runY := CR.replace_bfree_run CR.phYearS.data g7 (by decide) h7
  have bkYMo := CR.replace_blocks_append CR.phYearS.data CR.phMonthS.data (by decide)
  have bkYD := CR.replace_blocks_append CR.phYearS.data CR.phDayS.data (by decide)
  have bkYH := CR.replace_blocks_append CR.phYearS.data CR.phHourS.data (by decide)
  have bkYMi := CR.replace_blocks_append CR.phYearS.data CR.phMinuteS.data (by decide)
  have bkYSe := CR.replace_blocks_append CR.phYearS.data CR.phSecondS.data (by decide)
  have bfMox0 := CR.replace_bfree_append CR.phMonthS.data (g0) (by decide) h0
  have bfMox1 := CR.replace_bfree_append CR.phMonthS.data (g1) (by decide) h1
  have bfMox2 := CR.replace_bfree_append CR.phMonthS.data (g2) (by decide) h2
  have bfMox3 := CR.replace_bfree_append CR.phMonthS.data (g3) (by decide) h3
  have bfMox4 := CR.replace_bfree_append CR.phMonthS.data (g4) (by decide) h4
  have bfMox5 := CR.replace_bfree_append CR.phMonthS.data (g5) (by decide) h5
  have bfMox6 := CR.replace_bfree_append CR.phMonthS.data (g6) (by decide) h6
  have bfMox7 := CR.replace_bfree_append CR.phMonthS.data (g7) (by decide) h7
  have bfMox8 := CR.replace_bfree_append CR.phMonthS.data (room.data) (by decide) hroom
  have bfMox9 := CR.replace_bfree_append CR.phMonthS.data (tp.year.data) (by decide) hyr
  have bfMox10 := CR.replace_bfree_append CR.phMonthS.data (tp.month.data) (by decide) hmo
  have bfMox11 := CR.replace_bfree_append CR.phMonthS.data (tp.day.data) (by decide) hdy
  have bfMox12 := CR.replace_bfree_append CR.phMonthS.data (tp.hour.data) (by decide) hhr
  have bfMox13 := CR.replace_bfree_append CR.phMonthS.data (tp.minute.data) (by decide) hmi
  have bfMox14 := CR.replace_bfree_append CR.phMonthS.data (tp.second.data) (by decide) hsc
  have hitMo := CR.replace_hit_append CR.phMonthS.data (by decide)
  have runMo := CR.replace_bfree_run CR.phMonthS.data g7 (by decide) h7
  have bkMoD := CR.replace_blocks_append CR.phMonthS.data CR.phDayS.data (by decide)
  have bkMoH := CR.replace_blocks_append CR.phMonthS.data CR.phHourS.data (by decide)
  have bkMoMi := CR.replace_blocks_append CR.phMonthS.data CR.phMinuteS.data (by decide)
  have bkMoSe := CR.replace_blocks_append CR.phMonthS.data CR.phSecondS.data (by decide)
  have bfDx0 := CR.replace_bfree_append CR.phDayS.data (g0) (by decide) h0
  have bfDx1 := CR.replace_bfree_append CR.phDayS.data (g1) (by decide) h1
  have bfDx2 := CR.replace_bfree_append CR.phDayS.data (g2) (by decide) h2
  have bfDx3 := CR.replace_bfree_append CR.phDayS.data (g3) (by decide) h3
  have bfDx4 := CR.replace_bfree_append CR.phDayS.data (g4) (by decide) h4
  have bfDx5 := CR.replace_bfree_append CR.phDayS.data (g5) (by decide) h5
  have bfDx6 := CR.replace_bfree_append CR.phDayS.data (g6) (by decide) h6
  have bfDx7 := CR.replace_bfree_append CR.phDayS.data (g7) (by decide) h7
  have bfDx8 := CR.replace_bfree_append CR.phDayS.data (room.data) (by decide) hroom
  have bfDx9 := CR.replace_bfree_append CR.phDayS.data (tp.year.data) (by decide) hyr
  have bfDx10 := CR.replace_bfree_append CR.phDayS.data (tp.month.data) (by decide) hmo
  have bfDx11 := CR.replace_bfree_append CR.phDayS.data (tp.day.data) (by decide) hdy
  have bfDx12 := CR.replace_bfree_append CR.phDayS.data (tp.hour.data) (by decide) hhr
  have bfDx13 := CR.replace_bfree_append CR.phDayS.data (tp.minute.data) (by decide) hmi
  have bfDx14 := CR.replace_bfree_append CR.phDayS.data (tp.second.data) (by decide) hsc
  have hitD := CR.replace_hit_append CR.phDayS.data (by decide)
  have runD := CR.replace_bfree_run CR.phDayS.data g7 (by decide) h7
  have bkDH := CR.replace_blocks_append CR.phDayS.data CR.phHourS.data (by decide)
  have bkDMi := CR.replace_blocks_append CR.phDayS.data CR.phMinuteS.data (by decide)
  have bkDSe := CR.replace_blocks_append CR.phDayS.data CR.phSecondS.data (by decide)
  have bfHx0 := CR.replace_bfree_append CR.phHourS.data (g0) (by decide) h0
  have bfHx1 := CR.replace_bfree_append CR.phHourS.data (g1) (by decide) h1
  have bfHx2 := CR.replace_bfree_append CR.phHourS.data (g2) (by decide) h2
  have bfHx3 := CR.replace_bfree_append CR.phHourS.data (g3) (by decide) h3
  have bfHx4 := CR.replace_bfree_append CR.phHourS.data (g4) (by decide) h4
  have bfHx5 := CR.replace_bfree_append CR.phHourS.data (g5) (by decide) h5
  have bfHx6 := CR.replace_bfree_append CR.phHourS.data (g6) (by decide) h6
  have bfHx7 := CR.replace_bfree_append CR.phHourS.data (g7) (by decide) h7
  have bfHx8 := CR.replace_bfree_append CR.phHourS.data (room.data) (by decide) hroom
  have bfHx9 := CR.replace_bfree_append CR.phHourS.data (tp.year.data) (by decide) hyr
  have bfHx10 := CR.replace_bfree_append CR.phHourS.data (tp.month.data) (by decide) hmo
  have bfHx11 := CR.replace_bfree_append CR.phHourS.data (tp.day.data) (by decide) hdy
  have bfHx12 := CR.replace_bfree_append CR.phHourS.data (tp.hour.data) (by decide) hhr
  have bfHx13 := CR.replace_bfree_append CR.phHourS.data (tp.minute.data) (by decide) hmi
  have bfHx14 := CR.replace_bfree_append CR.phHourS.data (tp.second.data) (by decide) hsc
  have hitH := CR.replace_hit_append CR.phHourS.data (by decide)
  have runH := CR.replace_bfree_run CR.phHourS.data g7 (by decide) h7
  have bkHMi := CR.replace_blocks_append CR.phHourS.data CR.phMinuteS.data (by decide)
  have bkHSe := CR.replace_blocks_append CR.phHourS.data CR.phSecondS.data (by decide)
  have bfMix0 := CR.replace_bfree_append CR.phMinuteS.data (g0) (by decide) h0
  have bfMix1 := CR.replace_bfree_append CR.phMinuteS.data (g1) (by decide) h1
  have bfMix2 := CR.replace_bfree_append CR.phMinuteS.data (g2) (by decide) h2
  have bfMix3 := CR.replace_bfree_append CR.phMinuteS.data (g3) (by decide) h3
  have bfMix4 := CR.replace_bfree_append CR.phMinuteS.data (g4) (by decide) h4
  have bfMix5 := CR.replace_bfree_append CR.phMinuteS.data (g5) (by decide) h5
  have bfMix6 := CR.replace_bfree_append CR.phMinuteS.data (g6) (by decide) h6
  have bfMix7 := CR.replace_bfree_append CR.phMinuteS.data (g7) (by decide) h7
  have bfMix8 := CR.replace_bfree_append CR.phMinuteS.data (room.data) (by decide) hroom
  have bfMix9 := CR.replace_bfree_append CR.phMinuteS.data (tp.year.data) (by decide) hyr
  have bfMix10 := CR.replace_bfree_append CR.phMinuteS.data (tp.month.data) (by decide) hmo
  have bfMix11 := CR.replace_bfree_append CR.phMinuteS.data (tp.day.data) (by decide) hdy
  have bfMix12 := CR.replace_bfree_append CR.phMinuteS.data (tp.hour.data) (by decide) hhr
  have bfMix13 := CR.replace_bfree_append CR.phMinuteS.data (tp.minute.data) (by decide) hmi
  have bfMix14 := CR.replace_bfree_append CR.phMinuteS.data (tp.second.data) (by decide) hsc
  have hitMi := CR.replace_hit_append CR.phMinuteS.data (by decide)
  have runMi := CR.replace_bfree_run CR.phMinuteS.data g7 (by decide) h7
  have bkMiSe := CR.replace_blocks_append CR.phMinuteS.data CR.phSecondS.data (by decide)
  have bfSex0 := CR.replace_bfree_append CR.phSecondS.data (g0) (by decide) h0
  have bfSex1 := CR.replace_bfree_append CR.phSecondS.data (g1) (by decide) h1
  have bfSex2 := CR.replace_bfree_append CR.phSecondS.data (g2) (by decide) h2
  have bfSex3 := CR.replace_bfree_append CR.phSecondS.data (g3) (by decide) h3
  have bfSex4 := CR.replace_bfree_append CR.phSecondS.data (g4) (by decide) h4
  have bfSex5 := CR.replace_bfree_append CR.phSecondS.data (g5) (by decide) h5
  have bfSex6 := CR.replace_bfree_append CR.phSecondS.data (g6) (by decide) h6
  have bfSex7 := CR.replace_bfree_append CR.phSecondS.data (g7) (by decide) h7
  have bfSex8 := CR.replace_bfree_append CR.phSecondS.data (room.data) (by decide) hroom
  have bfSex9 := CR.replace_bfree_append CR.phSecondS.data (tp.year.data) (by decide) hyr
  have bfSex10 := CR.replace_bfree_append CR.phSecondS.data (tp.month.data) (by decide) hmo
  have bfSex11 := CR.replace_bfree_append CR.phSecondS.data (tp.day.data) (by decide) hdy
  have bfSex12 := CR.replace_bfree_append CR.phSecondS.data (tp.hour.data) (by decide) hhr
  have bfSex13 := CR.replace_bfree_append CR.phSecondS.data (tp.minute.data) (by decide) hmi
  have bfSex14 := CR.replace_bfree_append CR.phSecondS.data (tp.second.data) (by decide) hsc
  have hitSe := CR.replace_hit_append CR.phSecondS.data (by decide)
  have runSe := CR.replace_bfree_run CR.phSecondS.data g7 (by decide) h7
  constructor <;>
  · simp only [CR.generateOutputPath]
    simp only [CR.strReplace]
    simp only [CR.string_data_append]
    simp only [hpat]
    simp only [List.append_assoc]
    simp only [bfUx0,
      bfUx1,
      bfUx2,
      bfUx3,
      bfUx4,
      bfUx5,
      bfUx6,
      bfUx7,
      bfUx8,
      bfUx9,
      bfUx10,
      bfUx11,
      bfUx12,
      bfUx13,
      bfUx14,
      hitU,
      runU,
      bkUY,
      bkUMo,
      bkUD,
      bkUH,
      bkUMi,
      bkUSe,
      bfYx0,
      bfYx1,
      bfYx2,
      bfYx3,
      bfYx4,
      bfYx5,
      bfYx6,
      bfYx7,
      bfYx8,
      bfYx9,
      bfYx10,
      bfYx11,
      bfYx12,
      bfYx13,
      bfYx14,
      hitY,
      runY,
      bkYMo,
      bkYD,
      bkYH,
      bkYMi,
      bkYSe,
      bfMox0,
      bfMox1,
      bfMox2,
      bfMox3,
      bfMox4,
      bfMox5,
      bfMox6,
      bfMox7,
      bfMox8,
      bfMox9,
      bfMox10,
      bfMox11,
      bfMox12,
      bfMox13,
      bfMox14,
      hitMo,
      runMo,
      bkMoD,
      bkMoH,
      bkMoMi,
      bkMoSe,
      bfDx0,
      bfDx1,
      bfDx2,
      bfDx3,
      bfDx4,
      bfDx5,
      bfDx6,
      bfDx7,
      bfDx8,
      bfDx9,
      bfDx10,
      bfDx11,
      bfDx12,
      bfDx13,
      bfDx14,
      hitD,
      runD,
      bkDH,
      bkDMi,
      bkDSe,
      bfHx0,
      bfHx1,
      bfHx2,
      bfHx3,
      bfHx4,
      bfHx5,
      bfHx6,
      bfHx7,
      bfHx8,
      bfHx9,
      bfHx10,
      bfHx11,
      bfHx12,
      bfHx13,
      bfHx14,
      hitH,
      runH,
      bkHMi,
      bkHSe,
      bfMix0,
      bfMix1,
      bfMix2,
      bfMix3,
      bfMix4,
      bfMix5,
      bfMix6,
      bfMix7,
      bfMix8,
      bfMix9,
      bfMix10,
      bfMix11,
      bfMix12,
      bfMix13,
      bfMix14,
      hitMi,
      runMi,
      bkMiSe,
      bfSex0,
      bfSex1,
      bfSex2,
      bfSex3,
      bfSex4,
      bfSex5,
      bfSex6,
      bfSex7,
      bfSex8,
      bfSex9,
      bfSex10,
      bfSex11,
      bfSex12,
      bfSex13,
      bfSex14,
      hitSe,
      runSe]
    simp [CR.toString_five_data, List.append_assoc]

namespace CR

/-- The default filename pattern from `config/loader.rs`. -/
def defaultPattern : String :=
  "\x7b\x7b.Username\x7d\x7d_\x7b\x7b.Year\x7d\x7d-\x7b\x7b.Month\x7d\x7d-\x7b\x7b.Day\x7d\x7d_\x7b\x7b.Hour\x7d\x7d-\x7b\x7b.Minute\x7d\x7d-\x7b\x7b.Second\x7d\x7d"

end CR

/-- C9 witness: the theorem applied to the default pattern, the room
`alice` and a fixed time, for sequence 5 and sequence 0. -/
theorem C9_path_generation_witness :
    (CR.generateOutputPath "rec" CR.defaultPattern "alice" 5
        ⟨"2026", "10", "12", "13", "45", "59"⟩).data =
      "rec".data ++ '/' :: (([] : List Char) ++ "alice".data ++ ['_'] ++
        "2026".data ++ ['-'] ++ "10".data ++ ['-'] ++ "12".data ++ ['_'] ++
        "13".data ++ ['-'] ++ "45".data ++ ['-'] ++ "59".data ++
        ([] : List Char) ++ ('_' :: '5' :: '.' :: 't' :: 's' :: [])) ∧
    (CR.generateOutputPath "rec" CR.defaultPattern "alice" 0
        ⟨"2026", "10", "12", "13", "45", "59"⟩).data =
      "rec".data ++ '/' :: (([] : List Char) ++ "alice".data ++ ['_'] ++
        "2026".data ++ ['-'] ++ "10".data ++ ['-'] ++ "12".data ++ ['_'] ++
        "13".data ++ ['-'] ++ "45".data ++ ['-'] ++ "59".data ++
        ([] : List Char) ++ ('.' :: 't' :: 's' :: [])) :=
  C9_path_generation "rec" CR.defaultPattern "alice"
    ⟨"2026", "10", "12", "13", "45", "59"⟩
    [] ['_'] ['-'] ['-'] ['_'] ['-'] ['-'] []
    (by decide) (by decide) (by decide) (by decide) (by decide) (by decide)
    (by decide) (by decide) (by decide) (by decide) (by decide) (by decide)
    (by decide) (by decide) (by decide) (by decide)
